import Mathlib

/-!
Shallow embedding of the dbtools schema-introspection engine of
infra-mcp-server (pkg/dbtools/schema_cache.go and pkg/dbtools/query.go),
with theorems checking the claims its specification makes about it.

Conventions of the embedding:
* Go `interface{}` scalar values become the `Value` inductive; a driver row
  (`map[string]interface{}`) becomes an association list `Row`; Go map
  assignment becomes `assocSet` (replace-or-append), Go map append-to-slice
  becomes `assocAppendOne`.
* Time is an explicit `Nat` parameter (`now`); `time.Since(t) > ttl`
  becomes `now - t > ttl`.
* Fallible Go functions returning `(T, error)` become `Except String T`.
  Error strings reproduce the `fmt.Errorf` format text; the `%T` type name
  of a Go value is rendered as a fixed marker since the dynamic type name
  is not semantically relevant to any claim.
* The database handle (pkg/db, out of src/) is modelled per spec section 6
  as a driver name plus a query function from query text and positional
  arguments to rows or an error.  Each embedded operation additionally
  returns the ordered list of query texts it executed against the
  database, making "how many queries were attempted" provable.
* SQL query texts are reproduced from the source with runs of whitespace
  normalized to single spaces (no claim inspects whitespace).
* `rowsToMaps` (the Row Normalizer, not under src/) converts a live cursor
  into rows; the modelled driver already yields rows, so it is the
  successful identity here.
-/

namespace InfraMcp

/-- A dynamically typed scalar as carried in Go driver rows and assembled
records: string, integer, null, or a list of strings (the shape written by
the enum-values attachment). -/
inductive Value where
  | str (s : String)
  | int (n : Int)
  | null
  | strList (l : List String)
deriving DecidableEq, Repr

/-- A driver row: an ordered association of column name to value
(Go `map[string]interface{}` with the driver's unique column names). -/
abbrev Row := List (String × Value)

/-- Lookup in an association list (Go map read). -/
def assocLookup {α : Type} : List (String × α) → String → Option α
  | [], _ => none
  | (k, v) :: rest, key => if k = key then some v else assocLookup rest key

/-- Go map assignment `m[k] = v`: replace the binding if the key is
present, else append it. -/
def assocSet {α : Type} : List (String × α) → String → α → List (String × α)
  | [], k, v => [(k, v)]
  | (k', v') :: rest, k, v =>
      if k' = k then (k, v) :: rest else (k', v') :: assocSet rest k v

/-- Go `m[k] = append(m[k], v)` for a map from string to slice. -/
def assocAppendOne {α : Type} : List (String × List α) → String → α → List (String × List α)
  | [], k, v => [(k, [v])]
  | (k', vs) :: rest, k, v =>
      if k' = k then (k', vs ++ [v]) :: rest else (k', vs) :: assocAppendOne rest k v

/-- Whether an `Except` is a success. -/
def isOkE {ε α : Type} : Except ε α → Bool
  | .ok _ => true
  | .error _ => false

/-- Whether an `Except` is an error. -/
def isErrE {ε α : Type} : Except ε α → Bool
  | .ok _ => false
  | .error _ => true

/-- Character-list prefix test (the model of Go `strings.HasPrefix`). -/
def listIsPrefix : List Char → List Char → Bool
  | [], _ => true
  | _ :: _, [] => false
  | p :: ps, c :: cs => if p = c then listIsPrefix ps cs else false

/-- Character-list substring test (the model of Go `strings.Contains`). -/
def listContainsSub (pat : List Char) : List Char → Bool
  | [] => listIsPrefix pat []
  | c :: cs => if listIsPrefix pat (c :: cs) then true else listContainsSub pat cs

/-- Go `strings.HasPrefix s pre`. -/
def strHasPrefix (s pre : String) : Bool := listIsPrefix pre.data s.data

/-- Go `strings.Contains s sub`. -/
def strContainsSub (s sub : String) : Bool := listContainsSub sub.data s.data

/-- Go `strings.ToUpper` (ASCII letters; the SQL keywords checked by the
query validator are all ASCII). -/
def strToUpper (s : String) : String := String.mk (s.data.map Char.toUpper)

/-- Go `strings.TrimSpace` (leading and trailing whitespace removed). -/
def strTrim (s : String) : String :=
  String.mk (((s.data.dropWhile Char.isWhitespace).reverse.dropWhile Char.isWhitespace).reverse)

/-! ## Schema cache (schema_cache.go lines 12-114)

The cached payload is opaque to the cache (Go stores `interface{}`), so the
embedding is parametric in the payload type.  The wall clock is an explicit
`now : Nat` argument. -/

/-- A cached schema with its creation timestamp (Go `schemaCacheEntry`). -/
structure SchemaCacheEntryM (α : Type) where
  schema : α
  timestamp : Nat
deriving DecidableEq, Repr

/-- The schema cache: entries keyed by database identifier, plus the fixed
time-to-live (Go `SchemaCache`; the mutex guards concurrency only and has
no sequential semantics). -/
structure SchemaCacheM (α : Type) where
  entries : List (String × SchemaCacheEntryM α)
  ttl : Nat
deriving DecidableEq, Repr

/-- Go `SchemaCache.Get`: the entry if present and not older than the TTL,
with a found flag; `(nil, false)` otherwise. -/
def SchemaCacheM.Get {α : Type} (c : SchemaCacheM α) (now : Nat) (dbID : String) :
    Option α × Bool :=
  match assocLookup c.entries dbID with
  | none => (none, false)
  | some entry =>
      if now - entry.timestamp > c.ttl then (none, false)
      else (some entry.schema, true)

/-- Go `SchemaCache.Set`: unconditionally store the payload with the
current time as its timestamp. -/
def SchemaCacheM.Set {α : Type} (c : SchemaCacheM α) (now : Nat) (dbID : String) (schema : α) :
    SchemaCacheM α :=
  { c with entries := assocSet c.entries dbID { schema := schema, timestamp := now } }

/-- Go `SchemaCache.Invalidate`: remove one entry. -/
def SchemaCacheM.Invalidate {α : Type} (c : SchemaCacheM α) (dbID : String) : SchemaCacheM α :=
  { c with entries := c.entries.filter (fun p => p.1 ≠ dbID) }

/-- Go `SchemaCache.CleanupExpired`: drop every entry older than the TTL. -/
def SchemaCacheM.CleanupExpired {α : Type} (c : SchemaCacheM α) (now : Nat) : SchemaCacheM α :=
  { c with entries := c.entries.filter (fun p => ¬ (now - p.2.timestamp > c.ttl)) }

/-! ## Dialect strategies (schema_cache.go lines 157-971)

Each strategy operation returns the ordered fallback candidates for one
introspection facet.  SQL texts are the source's, whitespace-normalized. -/

/-- A query candidate: SQL text plus positional arguments
(Go `queryWithArgs`). -/
structure QueryWithArgs where
  query : String
  args : List Value
deriving DecidableEq, Repr

/-- The closed set of dialect strategies (Go `DatabaseStrategy`
implementations `PostgresStrategy`, `MySQLStrategy`, `GenericStrategy`). -/
inductive DatabaseStrategy where
  | postgres
  | mysql
  | generic
deriving DecidableEq, Repr

/-- Go `NewDatabaseStrategy`: exact match on the driver name, anything
unknown falls back to the generic strategy. -/
def NewDatabaseStrategy (driverName : String) : DatabaseStrategy :=
  match driverName with
  | "postgres" => .postgres
  | "mysql" => .mysql
  | _ => .generic

/-- Go `PostgresStrategy.GetTablesQueries`. -/
def PostgresStrategy.GetTablesQueries : List QueryWithArgs :=
  [ { query := "SELECT tablename as table_name FROM pg_catalog.pg_tables WHERE schemaname = 'public'", args := [] },
    { query := "SELECT table_name FROM information_schema.tables WHERE table_schema = 'public'", args := [] },
    { query := "SELECT relname as table_name FROM pg_catalog.pg_class WHERE relkind = 'r' AND relnamespace = (SELECT oid FROM pg_catalog.pg_namespace WHERE nspname = 'public')", args := [] } ]

/-- Go `PostgresStrategy.GetColumnsQueries`. -/
def PostgresStrategy.GetColumnsQueries (table : String) : List QueryWithArgs :=
  [ { query := "SELECT column_name, data_type, udt_name, CASE WHEN is_nullable = 'YES' THEN 'YES' ELSE 'NO' END as is_nullable, column_default FROM information_schema.columns WHERE table_name = $1 AND table_schema = 'public' ORDER BY ordinal_position",
      args := [.str table] },
    { query := "SELECT a.attname as column_name, pg_catalog.format_type(a.atttypid, a.atttypmod) as data_type, t.typname as udt_name, CASE WHEN a.attnotnull THEN 'NO' ELSE 'YES' END as is_nullable, pg_catalog.pg_get_expr(d.adbin, d.adrelid) as column_default FROM pg_catalog.pg_attribute a LEFT JOIN pg_catalog.pg_attrdef d ON (a.attrelid = d.adrelid AND a.attnum = d.adnum) LEFT JOIN pg_catalog.pg_type t ON a.atttypid = t.oid WHERE a.attrelid = (SELECT oid FROM pg_catalog.pg_class WHERE relname = $1 AND relnamespace = (SELECT oid FROM pg_catalog.pg_namespace WHERE nspname = 'public')) AND a.attnum > 0 AND NOT a.attisdropped ORDER BY a.attnum",
      args := [.str table] } ]

/-- The first base relationships query of `PostgresStrategy.GetRelationshipsQueries`. -/
def pgRelationshipsBase1 : String :=
  "SELECT tc.table_schema, tc.constraint_name, tc.table_name, kcu.column_name, ccu.table_schema AS foreign_table_schema, ccu.table_name AS foreign_table_name, ccu.column_name AS foreign_column_name FROM information_schema.table_constraints AS tc JOIN information_schema.key_column_usage AS kcu ON tc.constraint_name = kcu.constraint_name AND tc.table_schema = kcu.table_schema JOIN information_schema.constraint_column_usage AS ccu ON ccu.constraint_name = tc.constraint_name AND ccu.table_schema = tc.table_schema WHERE tc.constraint_type = 'FOREIGN KEY' AND tc.table_schema = 'public'"

/-- The second base relationships query of `PostgresStrategy.GetRelationshipsQueries`. -/
def pgRelationshipsBase2 : String :=
  "SELECT ns.nspname AS table_schema, c.conname AS constraint_name, cl.relname AS table_name, att.attname AS column_name, ns2.nspname AS foreign_table_schema, cl2.relname AS foreign_table_name, att2.attname AS foreign_column_name FROM pg_constraint c JOIN pg_class cl ON c.conrelid = cl.oid JOIN pg_attribute att ON att.attrelid = cl.oid AND att.attnum = ANY(c.conkey) JOIN pg_namespace ns ON ns.oid = cl.relnamespace JOIN pg_class cl2 ON c.confrelid = cl2.oid JOIN pg_attribute att2 ON att2.attrelid = cl2.oid AND att2.attnum = ANY(c.confkey) JOIN pg_namespace ns2 ON ns2.oid = cl2.relnamespace WHERE c.contype = 'f' AND ns.nspname = 'public'"

/-- Go `PostgresStrategy.GetRelationshipsQueries`: the base queries for an
empty table argument, else the base queries with a table filter appended. -/
def PostgresStrategy.GetRelationshipsQueries (table : String) : List QueryWithArgs :=
  if table = "" then
    [ { query := pgRelationshipsBase1, args := [] },
      { query := pgRelationshipsBase2, args := [] } ]
  else
    [ { query := pgRelationshipsBase1 ++ " AND (tc.table_name = $1 OR ccu.table_name = $1)", args := [.str table] },
      { query := pgRelationshipsBase2 ++ " AND (cl.relname = $1 OR cl2.relname = $1)", args := [.str table] } ]

/-- Go `PostgresStrategy.GetPrimaryKeysQueries`. -/
def PostgresStrategy.GetPrimaryKeysQueries (table : String) : List QueryWithArgs :=
  if table = "" then
    [ { query := "SELECT tc.table_name, kcu.column_name, tc.constraint_name FROM information_schema.table_constraints tc JOIN information_schema.key_column_usage kcu ON tc.constraint_name = kcu.constraint_name AND tc.table_schema = kcu.table_schema WHERE tc.constraint_type = 'PRIMARY KEY' AND tc.table_schema = 'public' ORDER BY tc.table_name, kcu.ordinal_position",
        args := [] } ]
  else
    [ { query := "SELECT tc.table_name, kcu.column_name, tc.constraint_name FROM information_schema.table_constraints tc JOIN information_schema.key_column_usage kcu ON tc.constraint_name = kcu.constraint_name AND tc.table_schema = kcu.table_schema WHERE tc.constraint_type = 'PRIMARY KEY' AND tc.table_schema = 'public' AND tc.table_name = $1 ORDER BY kcu.ordinal_position",
        args := [.str table] } ]

/-- Go `PostgresStrategy.GetIndexesQueries`. -/
def PostgresStrategy.GetIndexesQueries (table : String) : List QueryWithArgs :=
  if table = "" then
    [ { query := "SELECT tablename, indexname, indexdef FROM pg_indexes WHERE schemaname = 'public' ORDER BY tablename, indexname", args := [] } ]
  else
    [ { query := "SELECT tablename, indexname, indexdef FROM pg_indexes WHERE schemaname = 'public' AND tablename = $1 ORDER BY indexname", args := [.str table] } ]

/-- Go `PostgresStrategy.GetEnumValuesQueries`. -/
def PostgresStrategy.GetEnumValuesQueries : List QueryWithArgs :=
  [ { query := "SELECT t.typname as enum_name, n.nspname as schema_name, e.enumlabel as enum_value, e.enumsortorder as sort_order FROM pg_type t JOIN pg_enum e ON t.oid = e.enumtypid JOIN pg_catalog.pg_namespace n ON n.oid = t.typnamespace WHERE n.nspname = 'public' ORDER BY t.typname, e.enumsortorder",
      args := [] } ]

/-- Go `PostgresStrategy.GetUniqueConstraintsQueries`. -/
def PostgresStrategy.GetUniqueConstraintsQueries (table : String) : List QueryWithArgs :=
  if table = "" then
    [ { query := "SELECT tc.table_name, tc.constraint_name, tc.constraint_type, STRING_AGG(kcu.column_name, ', ' ORDER BY kcu.ordinal_position) as column_names FROM information_schema.table_constraints tc JOIN information_schema.key_column_usage kcu ON tc.constraint_name = kcu.constraint_name AND tc.table_schema = kcu.table_schema WHERE tc.constraint_type IN ('UNIQUE', 'PRIMARY KEY') AND tc.table_schema = 'public' GROUP BY tc.table_name, tc.constraint_name, tc.constraint_type ORDER BY tc.table_name, tc.constraint_name",
        args := [] } ]
  else
    [ { query := "SELECT tc.table_name, tc.constraint_name, tc.constraint_type, STRING_AGG(kcu.column_name, ', ' ORDER BY kcu.ordinal_position) as column_names FROM information_schema.table_constraints tc JOIN information_schema.key_column_usage kcu ON tc.constraint_name = kcu.constraint_name AND tc.table_schema = kcu.table_schema WHERE tc.constraint_type IN ('UNIQUE', 'PRIMARY KEY') AND tc.table_schema = 'public' AND tc.table_name = $1 GROUP BY tc.table_name, tc.constraint_name, tc.constraint_type ORDER BY tc.constraint_name",
        args := [.str table] } ]

/-- Go `PostgresStrategy.GetTableStatsQueries`. -/
def PostgresStrategy.GetTableStatsQueries (table : String) : List QueryWithArgs :=
  if table = "" then
    [ { query := "SELECT schemaname, relname as table_name, n_live_tup as row_count_estimate, n_dead_tup as dead_tuples, last_vacuum, last_autovacuum, last_analyze, last_autoanalyze FROM pg_stat_user_tables WHERE schemaname = 'public' ORDER BY relname",
        args := [] } ]
  else
    [ { query := "SELECT schemaname, relname as table_name, n_live_tup as row_count_estimate, n_dead_tup as dead_tuples, last_vacuum, last_autovacuum, last_analyze, last_autoanalyze FROM pg_stat_user_tables WHERE schemaname = 'public' AND relname = $1",
        args := [.str table] } ]

/-- Go `MySQLStrategy.GetTablesQueries`. -/
def MySQLStrategy.GetTablesQueries : List QueryWithArgs :=
  [ { query := "SELECT table_name FROM information_schema.tables WHERE table_schema = DATABASE()", args := [] },
    { query := "SHOW TABLES", args := [] } ]

/-- Go `MySQLStrategy.GetColumnsQueries`. -/
def MySQLStrategy.GetColumnsQueries (table : String) : List QueryWithArgs :=
  [ { query := "SELECT column_name, data_type, is_nullable, column_default FROM information_schema.columns WHERE table_name = ? AND table_schema = DATABASE() ORDER BY ordinal_position",
      args := [.str table] },
    { query := "SHOW COLUMNS FROM " ++ table, args := [] } ]

/-- The first base relationships query of `MySQLStrategy.GetRelationshipsQueries`. -/
def mysqlRelationshipsBase1 : String :=
  "SELECT tc.table_schema, tc.constraint_name, tc.table_name, kcu.column_name, kcu.referenced_table_schema AS foreign_table_schema, kcu.referenced_table_name AS foreign_table_name, kcu.referenced_column_name AS foreign_column_name FROM information_schema.table_constraints AS tc JOIN information_schema.key_column_usage AS kcu ON tc.constraint_name = kcu.constraint_name AND tc.table_schema = kcu.table_schema WHERE tc.constraint_type = 'FOREIGN KEY' AND tc.table_schema = DATABASE()"

/-- The second base relationships query of `MySQLStrategy.GetRelationshipsQueries`. -/
def mysqlRelationshipsBase2 : String :=
  "SELECT kcu.constraint_schema AS table_schema, kcu.constraint_name, kcu.table_name, kcu.column_name, kcu.referenced_table_schema AS foreign_table_schema, kcu.referenced_table_name AS foreign_table_name, kcu.referenced_column_name AS foreign_column_name FROM information_schema.key_column_usage kcu WHERE kcu.referenced_table_name IS NOT NULL AND kcu.constraint_schema = DATABASE()"

/-- Go `MySQLStrategy.GetRelationshipsQueries`. -/
def MySQLStrategy.GetRelationshipsQueries (table : String) : List QueryWithArgs :=
  if table = "" then
    [ { query := mysqlRelationshipsBase1, args := [] },
      { query := mysqlRelationshipsBase2, args := [] } ]
  else
    [ { query := mysqlRelationshipsBase1 ++ " AND (tc.table_name = ? OR kcu.referenced_table_name = ?)", args := [.str table, .str table] },
      { query := mysqlRelationshipsBase2 ++ " AND (kcu.table_name = ? OR kcu.referenced_table_name = ?)", args := [.str table, .str table] } ]

/-- The base primary-keys query of `MySQLStrategy.GetPrimaryKeysQueries`. -/
def mysqlPrimaryKeysBase : String :=
  "SELECT tc.table_name, kcu.column_name, tc.constraint_name FROM information_schema.table_constraints tc JOIN information_schema.key_column_usage kcu ON tc.constraint_name = kcu.constraint_name AND tc.table_schema = kcu.table_schema WHERE tc.constraint_type = 'PRIMARY KEY' AND tc.table_schema = DATABASE() ORDER BY tc.table_name, kcu.ordinal_position"

/-- Go `MySQLStrategy.GetPrimaryKeysQueries`. -/
def MySQLStrategy.GetPrimaryKeysQueries (table : String) : List QueryWithArgs :=
  if table = "" then
    [ { query := mysqlPrimaryKeysBase, args := [] } ]
  else
    [ { query := mysqlPrimaryKeysBase ++ " AND tc.table_name = ?", args := [.str table] } ]

/-- The base indexes query of `MySQLStrategy.GetIndexesQueries`. -/
def mysqlIndexesBase : String :=
  "SELECT table_name, index_name, GROUP_CONCAT(column_name ORDER BY seq_in_index) as column_names, non_unique FROM information_schema.statistics WHERE table_schema = DATABASE() GROUP BY table_name, index_name, non_unique ORDER BY table_name, index_name"

/-- Go `MySQLStrategy.GetIndexesQueries`. -/
def MySQLStrategy.GetIndexesQueries (table : String) : List QueryWithArgs :=
  if table = "" then
    [ { query := mysqlIndexesBase, args := [] } ]
  else
    [ { query := mysqlIndexesBase ++ " HAVING table_name = ?", args := [.str table] } ]

/-- Go `MySQLStrategy.GetEnumValuesQueries`. -/
def MySQLStrategy.GetEnumValuesQueries : List QueryWithArgs :=
  [ { query := "SELECT c.table_name, c.column_name as enum_name, c.column_type as enum_definition FROM information_schema.columns c WHERE c.table_schema = DATABASE() AND c.column_type LIKE 'enum(%' ORDER BY c.table_name, c.column_name",
      args := [] } ]

/-- The base unique-constraints query of `MySQLStrategy.GetUniqueConstraintsQueries`. -/
def mysqlUniqueConstraintsBase : String :=
  "SELECT tc.table_name, tc.constraint_name, tc.constraint_type, GROUP_CONCAT(kcu.column_name ORDER BY kcu.ordinal_position) as column_names FROM information_schema.table_constraints tc JOIN information_schema.key_column_usage kcu ON tc.constraint_name = kcu.constraint_name AND tc.table_schema = kcu.table_schema WHERE tc.constraint_type IN ('UNIQUE', 'PRIMARY KEY') AND tc.table_schema = DATABASE() GROUP BY tc.table_name, tc.constraint_name, tc.constraint_type ORDER BY tc.table_name, tc.constraint_name"

/-- Go `MySQLStrategy.GetUniqueConstraintsQueries`. -/
def MySQLStrategy.GetUniqueConstraintsQueries (table : String) : List QueryWithArgs :=
  if table = "" then
    [ { query := mysqlUniqueConstraintsBase, args := [] } ]
  else
    [ { query := mysqlUniqueConstraintsBase ++ " HAVING tc.table_name = ?", args := [.str table] } ]

/-- The base table-stats query of `MySQLStrategy.GetTableStatsQueries`. -/
def mysqlTableStatsBase : String :=
  "SELECT table_schema, table_name, table_rows as row_count_estimate, data_length, index_length, data_free, create_time, update_time FROM information_schema.tables WHERE table_schema = DATABASE() ORDER BY table_name"

/-- Go `MySQLStrategy.GetTableStatsQueries`. -/
def MySQLStrategy.GetTableStatsQueries (table : String) : List QueryWithArgs :=
  if table = "" then
    [ { query := mysqlTableStatsBase, args := [] } ]
  else
    [ { query := mysqlTableStatsBase ++ " AND table_name = ?", args := [.str table] } ]

/-- Go `GenericStrategy.GetTablesQueries`. -/
def GenericStrategy.GetTablesQueries : List QueryWithArgs :=
  [ { query := "SELECT table_name FROM information_schema.tables WHERE table_schema = 'public'", args := [] },
    { query := "SELECT table_name FROM information_schema.tables", args := [] },
    { query := "SHOW TABLES", args := [] } ]

/-- Go `GenericStrategy.GetColumnsQueries`. -/
def GenericStrategy.GetColumnsQueries (table : String) : List QueryWithArgs :=
  [ { query := "SELECT column_name, data_type, is_nullable, column_default FROM information_schema.columns WHERE table_name = $1 ORDER BY ordinal_position",
      args := [.str table] },
    { query := "SELECT column_name, data_type, is_nullable, column_default FROM information_schema.columns WHERE table_name = ? ORDER BY ordinal_position",
      args := [.str table] } ]

/-- The PostgreSQL-style base relationships query of
`GenericStrategy.GetRelationshipsQueries`. -/
def genericRelationshipsPg : String :=
  "SELECT tc.table_schema, tc.constraint_name, tc.table_name, kcu.column_name, ccu.table_schema AS foreign_table_schema, ccu.table_name AS foreign_table_name, ccu.column_name AS foreign_column_name FROM information_schema.table_constraints AS tc JOIN information_schema.key_column_usage AS kcu ON tc.constraint_name = kcu.constraint_name AND tc.table_schema = kcu.table_schema JOIN information_schema.constraint_column_usage AS ccu ON ccu.constraint_name = tc.constraint_name AND ccu.table_schema = tc.table_schema WHERE tc.constraint_type = 'FOREIGN KEY'"

/-- The MySQL-style base relationships query of
`GenericStrategy.GetRelationshipsQueries`. -/
def genericRelationshipsMysql : String :=
  "SELECT kcu.constraint_schema AS table_schema, kcu.constraint_name, kcu.table_name, kcu.column_name, kcu.referenced_table_schema AS foreign_table_schema, kcu.referenced_table_name AS foreign_table_name, kcu.referenced_column_name AS foreign_column_name FROM information_schema.key_column_usage kcu WHERE kcu.referenced_table_name IS NOT NULL"

/-- Go `GenericStrategy.GetRelationshipsQueries`. -/
def GenericStrategy.GetRelationshipsQueries (table : String) : List QueryWithArgs :=
  if table = "" then
    [ { query := genericRelationshipsPg, args := [] },
      { query := genericRelationshipsMysql, args := [] } ]
  else
    [ { query := genericRelationshipsPg ++ " AND (tc.table_name = $1 OR ccu.table_name = $1)", args := [.str table] },
      { query := genericRelationshipsMysql ++ " AND (kcu.table_name = ? OR kcu.referenced_table_name = ?)", args := [.str table, .str table] } ]

/-- The base primary-keys query of `GenericStrategy.GetPrimaryKeysQueries`. -/
def genericPrimaryKeysBase : String :=
  "SELECT tc.table_name, kcu.column_name, tc.constraint_name FROM information_schema.table_constraints tc JOIN information_schema.key_column_usage kcu ON tc.constraint_name = kcu.constraint_name WHERE tc.constraint_type = 'PRIMARY KEY' ORDER BY tc.table_name, kcu.ordinal_position"

/-- Go `GenericStrategy.GetPrimaryKeysQueries`. -/
def GenericStrategy.GetPrimaryKeysQueries (table : String) : List QueryWithArgs :=
  if table = "" then
    [ { query := genericPrimaryKeysBase, args := [] } ]
  else
    [ { query := genericPrimaryKeysBase ++ " AND tc.table_name = ?", args := [.str table] } ]

/-- The base indexes query of `GenericStrategy.GetIndexesQueries`. -/
def genericIndexesBase : String :=
  "SELECT table_name, index_name, column_name FROM information_schema.statistics ORDER BY table_name, index_name"

/-- Go `GenericStrategy.GetIndexesQueries`. -/
def GenericStrategy.GetIndexesQueries (table : String) : List QueryWithArgs :=
  if table = "" then
    [ { query := genericIndexesBase, args := [] } ]
  else
    [ { query := genericIndexesBase ++ " WHERE table_name = ?", args := [.str table] } ]

/-- Go `GenericStrategy.GetEnumValuesQueries`. -/
def GenericStrategy.GetEnumValuesQueries : List QueryWithArgs :=
  [ { query := "SELECT t.typname as enum_name, n.nspname as schema_name, e.enumlabel as enum_value, e.enumsortorder as sort_order FROM pg_type t JOIN pg_enum e ON t.oid = e.enumtypid JOIN pg_catalog.pg_namespace n ON n.oid = t.typnamespace WHERE n.nspname = 'public' ORDER BY t.typname, e.enumsortorder",
      args := [] },
    { query := "SELECT c.table_name, c.column_name as enum_name, c.column_type as enum_definition FROM information_schema.columns c WHERE c.table_schema = DATABASE() AND c.column_type LIKE 'enum(%' ORDER BY c.table_name, c.column_name",
      args := [] } ]

/-- The base unique-constraints query of
`GenericStrategy.GetUniqueConstraintsQueries`. -/
def genericUniqueConstraintsBase : String :=
  "SELECT tc.table_name, tc.constraint_name, tc.constraint_type, kcu.column_name FROM information_schema.table_constraints tc JOIN information_schema.key_column_usage kcu ON tc.constraint_name = kcu.constraint_name WHERE tc.constraint_type IN ('UNIQUE', 'PRIMARY KEY') ORDER BY tc.table_name, tc.constraint_name, kcu.ordinal_position"

/-- Go `GenericStrategy.GetUniqueConstraintsQueries`. -/
def GenericStrategy.GetUniqueConstraintsQueries (table : String) : List QueryWithArgs :=
  if table = "" then
    [ { query := genericUniqueConstraintsBase, args := [] } ]
  else
    [ { query := genericUniqueConstraintsBase ++ " AND tc.table_name = ?", args := [.str table] } ]

/-- The PostgreSQL-style base table-stats query of
`GenericStrategy.GetTableStatsQueries`. -/
def genericTableStatsPg : String :=
  "SELECT schemaname, relname as table_name, n_live_tup as row_count_estimate, n_dead_tup as dead_tuples, last_vacuum, last_autovacuum, last_analyze, last_autoanalyze FROM pg_stat_user_tables WHERE schemaname = 'public'"

/-- The MySQL-style base table-stats query of
`GenericStrategy.GetTableStatsQueries`. -/
def genericTableStatsMysql : String :=
  "SELECT table_schema, table_name, table_rows as row_count_estimate, data_length, index_length, data_free, create_time, update_time FROM information_schema.tables WHERE table_schema = DATABASE()"

/-- Go `GenericStrategy.GetTableStatsQueries`. -/
def GenericStrategy.GetTableStatsQueries (table : String) : List QueryWithArgs :=
  if table = "" then
    [ { query := genericTableStatsPg ++ " ORDER BY relname", args := [] },
      { query := genericTableStatsMysql ++ " ORDER BY table_name", args := [] } ]
  else
    [ { query := genericTableStatsPg ++ " AND relname = $1", args := [.str table] },
      { query := genericTableStatsMysql ++ " AND table_name = ?", args := [.str table] } ]

/-- Dispatch of the `GetTablesQueries` facet over the strategy (Go
interface dispatch). -/
def DatabaseStrategy.GetTablesQueries : DatabaseStrategy → List QueryWithArgs
  | .postgres => PostgresStrategy.GetTablesQueries
  | .mysql => MySQLStrategy.GetTablesQueries
  | .generic => GenericStrategy.GetTablesQueries

/-- Dispatch of the `GetColumnsQueries` facet over the strategy. -/
def DatabaseStrategy.GetColumnsQueries : DatabaseStrategy → String → List QueryWithArgs
  | .postgres => PostgresStrategy.GetColumnsQueries
  | .mysql => MySQLStrategy.GetColumnsQueries
  | .generic => GenericStrategy.GetColumnsQueries

/-- Dispatch of the `GetRelationshipsQueries` facet over the strategy. -/
def DatabaseStrategy.GetRelationshipsQueries : DatabaseStrategy → String → List QueryWithArgs
  | .postgres => PostgresStrategy.GetRelationshipsQueries
  | .mysql => MySQLStrategy.GetRelationshipsQueries
  | .generic => GenericStrategy.GetRelationshipsQueries

/-- Dispatch of the `GetPrimaryKeysQueries` facet over the strategy. -/
def DatabaseStrategy.GetPrimaryKeysQueries : DatabaseStrategy → String → List QueryWithArgs
  | .postgres => PostgresStrategy.GetPrimaryKeysQueries
  | .mysql => MySQLStrategy.GetPrimaryKeysQueries
  | .generic => GenericStrategy.GetPrimaryKeysQueries

/-- Dispatch of the `GetIndexesQueries` facet over the strategy. -/
def DatabaseStrategy.GetIndexesQueries : DatabaseStrategy → String → List QueryWithArgs
  | .postgres => PostgresStrategy.GetIndexesQueries
  | .mysql => MySQLStrategy.GetIndexesQueries
  | .generic => GenericStrategy.GetIndexesQueries

/-- Dispatch of the `GetEnumValuesQueries` facet over the strategy. -/
def DatabaseStrategy.GetEnumValuesQueries : DatabaseStrategy → List QueryWithArgs
  | .postgres => PostgresStrategy.GetEnumValuesQueries
  | .mysql => MySQLStrategy.GetEnumValuesQueries
  | .generic => GenericStrategy.GetEnumValuesQueries

/-- Dispatch of the `GetUniqueConstraintsQueries` facet over the strategy. -/
def DatabaseStrategy.GetUniqueConstraintsQueries : DatabaseStrategy → String → List QueryWithArgs
  | .postgres => PostgresStrategy.GetUniqueConstraintsQueries
  | .mysql => MySQLStrategy.GetUniqueConstraintsQueries
  | .generic => GenericStrategy.GetUniqueConstraintsQueries

/-- Dispatch of the `GetTableStatsQueries` facet over the strategy. -/
def DatabaseStrategy.GetTableStatsQueries : DatabaseStrategy → String → List QueryWithArgs
  | .postgres => PostgresStrategy.GetTableStatsQueries
  | .mysql => MySQLStrategy.GetTableStatsQueries
  | .generic => GenericStrategy.GetTableStatsQueries

/-! ## Database handle and fallback executor

Modelled from the spec: the connection handle `db.Database` lives in
pkg/db, outside src/.  Per spec section 6 it exposes the driver-name
identifier and a query operation taking query text and positional
arguments and returning a row cursor or an error.  Cursor iteration plus
`rowsToMaps` is modelled as the query function returning the row list
directly.  Context/timeout plumbing is not observable in this sequential
model and is omitted. -/

/-- The query-capable database handle: driver kind plus query operation. -/
structure Database where
  driverName : String
  query : String → List Value → Except String (List Row)

/-- Modelled from the spec: `rowsToMaps` (the Row Normalizer, pkg/dbtools
outside src/) converts a cursor into ordered rows keyed by column name;
the modelled cursor already is that row list, so the conversion is the
successful identity. -/
def rowsToMaps (rows : List Row) : Except String (List Row) := .ok rows

/-- The recursion of Go `executeWithFallbacks`: try each candidate in
order, remembering the last error; the second component is the ordered
list of query texts actually executed.  On exhaustion the error states the
operation name, the total number of candidates, and wraps the last error
(`fmt.Errorf` with `%w`); an empty candidate list wraps the nil error. -/
def executeWithFallbacksGo (db : Database) (total : Nat) (operationName : String)
    (lastErr : Option String) : List QueryWithArgs → Except String (List Row) × List String
  | [] =>
      (.error (operationName ++ " failed after trying " ++ toString total ++
        " fallback queries: " ++ lastErr.getD "<nil>"), [])
  | q :: rest =>
      match db.query q.query q.args with
      | .ok rows => (.ok rows, [q.query])
      | .error e =>
          let r := executeWithFallbacksGo db total operationName (some e) rest
          (r.1, q.query :: r.2)

/-- Go `executeWithFallbacks`: first successful candidate's rows, or the
exhaustion error; paired with the executed query texts in order. -/
def executeWithFallbacks (db : Database) (queries : List QueryWithArgs)
    (operationName : String) : Except String (List Row) × List String :=
  executeWithFallbacksGo db queries.length operationName none queries

/-! ## Facet operations (schema_cache.go lines 1086-1387)

Each Go facet handler returns `map[string]interface{}` with a fixed key
set; the embedding gives each envelope its own structure with the same
field names.  Each embedded operation also returns the executed query
texts. -/

/-- The envelope returned by Go `getTables`. -/
structure TablesResult where
  tables : List Row
  dbType : String
deriving DecidableEq, Repr

/-- Go `getTables`. -/
def getTables (db : Database) : Except String TablesResult × List String :=
  let strategy := NewDatabaseStrategy db.driverName
  let queries := strategy.GetTablesQueries
  match executeWithFallbacks db queries "getTables" with
  | (.error e, t) => (.error ("failed to get tables: " ++ e), t)
  | (.ok rows, t) =>
      match rowsToMaps rows with
      | .error e => (.error ("failed to process tables: " ++ e), t)
      | .ok results => (.ok { tables := results, dbType := db.driverName }, t)

/-- The envelope returned by Go `getColumns`. -/
structure ColumnsResult where
  table : String
  columns : List Row
  dbType : String
deriving DecidableEq, Repr

/-- Go `getColumns`. -/
def getColumns (db : Database) (table : String) : Except String ColumnsResult × List String :=
  let strategy := NewDatabaseStrategy db.driverName
  let queries := strategy.GetColumnsQueries table
  match executeWithFallbacks db queries ("getColumns[" ++ table ++ "]") with
  | (.error e, t) => (.error ("failed to get columns for table " ++ table ++ ": " ++ e), t)
  | (.ok rows, t) =>
      match rowsToMaps rows with
      | .error e => (.error ("failed to process columns: " ++ e), t)
      | .ok results => (.ok { table := table, columns := results, dbType := db.driverName }, t)

/-- The envelope returned by Go `getRelationships`. -/
structure RelationshipsResult where
  relationships : List Row
  dbType : String
  table : String
deriving DecidableEq, Repr

/-- Go `getRelationships`. -/
def getRelationships (db : Database) (table : String) :
    Except String RelationshipsResult × List String :=
  let strategy := NewDatabaseStrategy db.driverName
  let queries := strategy.GetRelationshipsQueries table
  match executeWithFallbacks db queries "getRelationships" with
  | (.error e, t) => (.error ("failed to get relationships for table " ++ table ++ ": " ++ e), t)
  | (.ok rows, t) =>
      match rowsToMaps rows with
      | .error e => (.error ("failed to process relationships: " ++ e), t)
      | .ok results =>
          (.ok { relationships := results, dbType := db.driverName, table := table }, t)

/-- The envelope returned by Go `getPrimaryKeys`. -/
structure PrimaryKeysResult where
  primary_keys : List Row
  dbType : String
  table : String
deriving DecidableEq, Repr

/-- Go `getPrimaryKeys`. -/
def getPrimaryKeys (db : Database) (table : String) :
    Except String PrimaryKeysResult × List String :=
  let strategy := NewDatabaseStrategy db.driverName
  let queries := strategy.GetPrimaryKeysQueries table
  match executeWithFallbacks db queries "getPrimaryKeys" with
  | (.error e, t) => (.error ("failed to get primary keys for table " ++ table ++ ": " ++ e), t)
  | (.ok rows, t) =>
      match rowsToMaps rows with
      | .error e => (.error ("failed to process primary keys: " ++ e), t)
      | .ok results =>
          (.ok { primary_keys := results, dbType := db.driverName, table := table }, t)

/-- The envelope returned by Go `getIndexes`. -/
structure IndexesResult where
  indexes : List Row
  dbType : String
  table : String
deriving DecidableEq, Repr

/-- Go `getIndexes`. -/
def getIndexes (db : Database) (table : String) : Except String IndexesResult × List String :=
  let strategy := NewDatabaseStrategy db.driverName
  let queries := strategy.GetIndexesQueries table
  match executeWithFallbacks db queries "getIndexes" with
  | (.error e, t) => (.error ("failed to get indexes for table " ++ table ++ ": " ++ e), t)
  | (.ok rows, t) =>
      match rowsToMaps rows with
      | .error e => (.error ("failed to process indexes: " ++ e), t)
      | .ok results => (.ok { indexes := results, dbType := db.driverName, table := table }, t)

/-- The envelope returned by Go `getEnumValues`. -/
structure EnumValuesResult where
  enums : List Row
  dbType : String
deriving DecidableEq, Repr

/-- Go `getEnumValues`: tolerant of total candidate failure — an empty
enum list with a warning instead of an error. -/
def getEnumValues (db : Database) : Except String EnumValuesResult × List String :=
  let strategy := NewDatabaseStrategy db.driverName
  let queries := strategy.GetEnumValuesQueries
  match executeWithFallbacks db queries "getEnumValues" with
  | (.error _, t) => (.ok { enums := [], dbType := db.driverName }, t)
  | (.ok rows, t) =>
      match rowsToMaps rows with
      | .error e => (.error ("failed to process enum values: " ++ e), t)
      | .ok results => (.ok { enums := results, dbType := db.driverName }, t)

/-- The envelope returned by Go `getUniqueConstraints`. -/
structure UniqueConstraintsResult where
  unique_constraints : List Row
  dbType : String
  table : String
deriving DecidableEq, Repr

/-- Go `getUniqueConstraints`. -/
def getUniqueConstraints (db : Database) (table : String) :
    Except String UniqueConstraintsResult × List String :=
  let strategy := NewDatabaseStrategy db.driverName
  let queries := strategy.GetUniqueConstraintsQueries table
  match executeWithFallbacks db queries "getUniqueConstraints" with
  | (.error e, t) => (.error ("failed to get unique constraints: " ++ e), t)
  | (.ok rows, t) =>
      match rowsToMaps rows with
      | .error e => (.error ("failed to process unique constraints: " ++ e), t)
      | .ok results =>
          (.ok { unique_constraints := results, dbType := db.driverName, table := table }, t)

/-- The envelope returned by Go `getTableStats`. -/
structure TableStatsResult where
  stats : List Row
  dbType : String
  table : String
deriving DecidableEq, Repr

/-- Go `getTableStats`: tolerant of total candidate failure — an empty
stats list with a warning instead of an error. -/
def getTableStats (db : Database) (table : String) :
    Except String TableStatsResult × List String :=
  let strategy := NewDatabaseStrategy db.driverName
  let queries := strategy.GetTableStatsQueries table
  match executeWithFallbacks db queries "getTableStats" with
  | (.error _, t) => (.ok { stats := [], dbType := db.driverName, table := table }, t)
  | (.ok rows, t) =>
      match rowsToMaps rows with
      | .error e => (.error ("failed to process table stats: " ++ e), t)
      | .ok results => (.ok { stats := results, dbType := db.driverName, table := table }, t)

/-! ## Full-schema assembly (schema_cache.go lines 1389-1606) -/

/-- Go `safeGetString`: the value at `key` if present and a string, else
an error (the Go message renders the offending value's type with a marker
here). -/
def safeGetString (m : Row) (key : String) : Except String String :=
  match assocLookup m key with
  | none => .error ("key \"" ++ key ++ "\" not found in map")
  | some val =>
      match val with
      | .str s => .ok s
      | _ => .error ("value for key \"" ++ key ++ "\" is not a string: <type>")

/-- A Go comma-ok string type assertion `v, ok := x.(string)`: the string
and true, or the zero value and false. -/
def goStringAssert : Option Value → String × Bool
  | some (.str s) => (s, true)
  | _ => ("", false)

/-- The enum catalog built in `getFullSchema`: Go folds each enum row with
string `enum_name` and `enum_value` into `enumsByType[name] = append(...)`,
preserving row order per type. -/
def buildEnumsByType (enums : List Row) : List (String × List String) :=
  enums.foldl (fun acc enum =>
    match assocLookup enum "enum_name" with
    | some (Value.str enumName) =>
        match assocLookup enum "enum_value" with
        | some (Value.str enumValue) => assocAppendOne acc enumName enumValue
        | _ => acc
    | _ => acc) []

/-- The stats index built in `getFullSchema`: each stat row with a string
`table_name` is stored under that name (later rows overwrite). -/
def buildStatsByTable (stats : List Row) : List (String × Row) :=
  stats.foldl (fun acc stat =>
    match assocLookup stat "table_name" with
    | some (Value.str tableName) => assocSet acc tableName stat
    | _ => acc) []

/-- The per-column enum enrichment inside `getFullSchema`'s table loop:
for declared type `USER-DEFINED` with a string `udt_name`, attach the
catalog's values and the type name under `enum_values`/`enum_type`;
otherwise look the declared type name up directly and attach only the
values. -/
def enhanceColumn (enumsByType : List (String × List String)) (column : Row) : Row :=
  let dt := goStringAssert (assocLookup column "data_type")
  let udt := goStringAssert (assocLookup column "udt_name")
  if dt.1 = "USER-DEFINED" && udt.2 then
    match assocLookup enumsByType udt.1 with
    | some enumVals =>
        assocSet (assocSet column "enum_values" (.strList enumVals)) "enum_type" (.str udt.1)
    | none => column
  else
    match assocLookup enumsByType dt.1 with
    | some enumVals => assocSet column "enum_values" (.strList enumVals)
    | none => column

/-- The enrichment applied to every fetched column row (the Go loop
mutates the shared row maps in place; mapping is its value semantics). -/
def enhanceColumns (enumsByType : List (String × List String)) (columns : List Row) : List Row :=
  columns.map (enhanceColumn enumsByType)

/-- One table's aggregate in the detailed schema (the
`map[string]interface{}` literal built per table; `foreign_keys` is
attached by the later relationship pass and starts empty). -/
structure TableDetail where
  columns : List Row
  primary_keys : List Row
  indexes : List Row
  unique_constraints : List Row
  statistics : Row
  foreign_keys : List Row
deriving DecidableEq, Repr

/-- The detailed entry `getFullSchema` builds for one table once its
columns fetch succeeded: enriched columns, tolerant primary keys, indexes
and unique constraints (empty on failure), and the pre-fetched statistics
entry (empty record if none). -/
def mkTableDetail (db : Database) (enumsByType : List (String × List String))
    (statsByTable : List (String × Row)) (tableName : String) (fetchedColumns : List Row) :
    TableDetail :=
  let columns := enhanceColumns enumsByType fetchedColumns
  let primaryKeys := match (getPrimaryKeys db tableName).1 with
    | .error _ => []
    | .ok r => r.primary_keys
  let indexes := match (getIndexes db tableName).1 with
    | .error _ => []
    | .ok r => r.indexes
  let uniqueConstraints := match (getUniqueConstraints db tableName).1 with
    | .error _ => []
    | .ok r => r.unique_constraints
  let tableStats := (assocLookup statsByTable tableName).getD []
  { columns := columns, primary_keys := primaryKeys, indexes := indexes,
    unique_constraints := uniqueConstraints, statistics := tableStats, foreign_keys := [] }

/-- The queries executed for one table's supplementary facets (primary
keys, indexes, unique constraints), in the source's order. -/
def tableDetailTrace (db : Database) (tableName : String) : List String :=
  (getPrimaryKeys db tableName).2 ++ (getIndexes db tableName).2 ++
    (getUniqueConstraints db tableName).2

/-- The per-table loop of Go `getFullSchema`: for each row of the table
list read `table_name` (aborting the whole assembly if absent or not a
string), fetch the table's columns (skipping the table on failure), build
its detailed entry, and store it under its name. -/
def buildDetailedSchema (db : Database) (enumsByType : List (String × List String))
    (statsByTable : List (String × Row)) (acc : List (String × TableDetail)) :
    List Row → Except String (List (String × TableDetail)) × List String
  | [] => (.ok acc, [])
  | tableInfo :: rest =>
      match safeGetString tableInfo "table_name" with
      | .error e => (.error ("invalid table info: " ++ e), [])
      | .ok tableName =>
          match getColumns db tableName with
          | (.error _, tq) =>
              let r := buildDetailedSchema db enumsByType statsByTable acc rest
              (r.1, tq ++ r.2)
          | (.ok columnsResult, tq) =>
              let detail := mkTableDetail db enumsByType statsByTable tableName
                columnsResult.columns
              let r := buildDetailedSchema db enumsByType statsByTable
                (assocSet acc tableName detail) rest
              (r.1, tq ++ tableDetailTrace db tableName ++ r.2)

/-- The foreign-key index built in `getFullSchema`: each relationship row
with a string `table_name` is appended to that table's list. -/
def buildFksByTable (foreignKeys : List Row) : List (String × List Row) :=
  foreignKeys.foldl (fun acc fk =>
    match assocLookup fk "table_name" with
    | some (Value.str tableName) => assocAppendOne acc tableName fk
    | _ => acc) []

/-- The final pass of `getFullSchema`: attach each table's foreign-key
partition (absent partition attaches the empty list) to its detailed
entry. -/
def attachForeignKeys (fksByTable : List (String × List Row))
    (detailedSchema : List (String × TableDetail)) : List (String × TableDetail) :=
  detailedSchema.map (fun p =>
    (p.1, { p.2 with foreign_keys := (assocLookup fksByTable p.1).getD [] }))

/-- The enum catalog as computed inside `getFullSchema` (empty when the
enum facet degraded). -/
def fullSchemaEnumTypes (db : Database) : List (String × List String) :=
  match (getEnumValues db).1 with
  | .error _ => []
  | .ok r => buildEnumsByType r.enums

/-- The raw enum rows as kept by `getFullSchema` (empty when the enum
facet degraded). -/
def fullSchemaEnumValues (db : Database) : List Row :=
  match (getEnumValues db).1 with
  | .error _ => []
  | .ok r => r.enums

/-- The statistics index as computed inside `getFullSchema` (empty when
the stats facet degraded). -/
def fullSchemaStatsByTable (db : Database) : List (String × Row) :=
  match (getTableStats db "").1 with
  | .error _ => []
  | .ok r => buildStatsByTable r.stats

/-- The global foreign-key rows as kept by `getFullSchema` (empty when
the relationships fetch degraded). -/
def fullSchemaForeignKeys (db : Database) : List Row :=
  match (getRelationships db "").1 with
  | .error _ => []
  | .ok r => r.relationships

/-- The root schema document returned by Go `getFullSchema`. -/
structure FullSchemaResult where
  tables : List Row
  detailed_schema : List (String × TableDetail)
  foreign_keys : List Row
  enum_types : List (String × List String)
  enum_values : List Row
deriving DecidableEq, Repr

/-- Go `getFullSchema`: table list mandatory; enum catalog and global
statistics tolerant; per-table loop with per-table failure isolation;
global relationships tolerant; foreign keys partitioned onto tables. -/
def getFullSchema (db : Database) : Except String FullSchemaResult × List String :=
  let tR := getTables db
  match tR.1 with
  | .error e => (.error ("failed to get tables: " ++ e), tR.2)
  | .ok tablesResult =>
      let tablesSlice := tablesResult.tables
      let eR := getEnumValues db
      let sR := getTableStats db ""
      let dR := buildDetailedSchema db (fullSchemaEnumTypes db) (fullSchemaStatsByTable db)
        [] tablesSlice
      match dR.1 with
      | .error e => (.error e, tR.2 ++ eR.2 ++ sR.2 ++ dR.2)
      | .ok detailedSchema =>
          let rR := getRelationships db ""
          let detailed := attachForeignKeys (buildFksByTable (fullSchemaForeignKeys db))
            detailedSchema
          (.ok { tables := tablesSlice, detailed_schema := detailed,
                 foreign_keys := fullSchemaForeignKeys db,
                 enum_types := fullSchemaEnumTypes db,
                 enum_values := fullSchemaEnumValues db },
           tR.2 ++ eR.2 ++ sR.2 ++ dR.2 ++ rR.2)

/-! ## Tool handlers (schema_cache.go lines 1006-1060, query.go lines 52-196)

The tool parameter bag is a dynamic map like a row.  The parameter
extraction helpers and the database manager live in the dbtools/db
packages outside src/ and are modelled from the spec. -/

/-- The tool-call parameter bag (Go `params map[string]interface{}`). -/
abbrev Params := List (String × Value)

/-- Modelled from the spec: `getStringParam` (pkg/dbtools, outside src/)
extracts a named parameter as a string with a comma-ok flag; a missing or
non-string parameter yields the zero value and false. -/
def getStringParam (params : Params) (key : String) : String × Bool :=
  goStringAssert (assocLookup params key)

/-- Modelled from the spec: `getIntParam` (pkg/dbtools, outside src/)
extracts a named integer parameter with a comma-ok flag. -/
def getIntParam (params : Params) (key : String) : Int × Bool :=
  match assocLookup params key with
  | some (Value.int n) => (n, true)
  | _ => (0, false)

/-- Modelled from the spec: `getArrayParam` (pkg/dbtools, outside src/)
extracts a named array-of-strings parameter with a comma-ok flag. -/
def getArrayParam (params : Params) (key : String) : List Value × Bool :=
  match assocLookup params key with
  | some (Value.strList l) => (l.map Value.str, true)
  | _ => ([], false)

/-- The database manager (pkg/db/manager.go, Go `Manager`): connected
handles keyed by connection ID.  The `configs` map and the mutex are not
modelled: no operation embedded here reads the configs, and the lock has
no sequential semantics. -/
structure Manager where
  connections : List (String × Database)

/-- Go `Manager.GetDatabase` (pkg/db/manager.go lines 190-201): the
connection with the given ID, or the `database connection <id> not found`
error. -/
def Manager.GetDatabase (m : Manager) (id : String) : Except String Database :=
  match assocLookup m.connections id with
  | some db => .ok db
  | none => .error ("database connection " ++ id ++ " not found")

/-- The result union of Go `handleSchemaExplorer` (the handler returns one
of the four component envelopes as `interface{}`). -/
inductive SchemaExplorerResult where
  | tablesR (r : TablesResult)
  | columnsR (r : ColumnsResult)
  | relationshipsR (r : RelationshipsResult)
  | fullR (r : FullSchemaResult)
deriving DecidableEq, Repr

/-- Go `handleSchemaExplorer`: required component and database parameters,
handle lookup, optional table parameter, then dispatch; the `columns`
component requires a non-empty table and an unknown component is an
explicit error.  The timeout parameter only bounds the call's context and
is not observable here.  The second component is the ordered list of
query texts executed against the database. -/
def handleSchemaExplorer (dbManager : Option Manager) (params : Params) :
    Except String SchemaExplorerResult × List String :=
  match dbManager with
  | none => (.error "database manager not initialized", [])
  | some mgr =>
      match getStringParam params "component" with
      | (_, false) => (.error "component parameter is required", [])
      | (component, true) =>
          match getStringParam params "database" with
          | (_, false) => (.error "database parameter is required", [])
          | (databaseID, true) =>
              match mgr.GetDatabase databaseID with
              | .error e => (.error ("failed to get database: " ++ e), [])
              | .ok db =>
                  let table := (getStringParam params "table").1
                  match component with
                  | "tables" =>
                      let r := getTables db
                      (r.1.map SchemaExplorerResult.tablesR, r.2)
                  | "columns" =>
                      if table = "" then
                        (.error "table parameter is required for columns component", [])
                      else
                        let r := getColumns db table
                        (r.1.map SchemaExplorerResult.columnsR, r.2)
                  | "relationships" =>
                      let r := getRelationships db table
                      (r.1.map SchemaExplorerResult.relationshipsR, r.2)
                  | "full" =>
                      let r := getFullSchema db
                      (r.1.map SchemaExplorerResult.fullR, r.2)
                  | _ => (.error ("invalid component: " ++ component), [])

/-! ## Read-only query tool (query.go) -/

/-- The write-operation keywords rejected by `validateReadOnlyQuery`. -/
def writeKeywords : List String :=
  ["INSERT", "UPDATE", "DELETE", "DROP", "CREATE", "ALTER",
   "TRUNCATE", "REPLACE", "MERGE", "GRANT", "REVOKE",
   "EXEC", "EXECUTE", "CALL"]

/-- The keyword loop of `validateReadOnlyQuery`: reject a keyword at the
start of the normalized query, or one following a semicolon. -/
def checkWriteKeywords (upperQuery : String) : List String → Except String Unit
  | [] => .ok ()
  | keyword :: rest =>
      if strHasPrefix upperQuery keyword then
        .error ("write operations are not allowed in read-only mode: detected " ++
          keyword ++ " statement")
      else if strContainsSub upperQuery (";" ++ keyword) ||
          strContainsSub upperQuery ("; " ++ keyword) then
        .error ("write operations are not allowed in read-only mode: detected " ++
          keyword ++ " statement")
      else checkWriteKeywords upperQuery rest

/-- The dangerous mid-query patterns rejected by `validateReadOnlyQuery`. -/
def dangerousPatterns : List String :=
  ["INSERT INTO", "UPDATE ", "DELETE FROM", "DROP ", "CREATE ",
   "ALTER ", "TRUNCATE ", "INTO OUTFILE", "INTO DUMPFILE"]

/-- The pattern loop of `validateReadOnlyQuery`. -/
def checkDangerousPatterns (upperQuery : String) : List String → Except String Unit
  | [] => .ok ()
  | pattern :: rest =>
      if strContainsSub upperQuery pattern then
        .error ("write operations are not allowed in read-only mode: detected '" ++
          pattern ++ "' pattern")
      else checkDangerousPatterns upperQuery rest

/-- Go `validateReadOnlyQuery`: uppercase the trimmed query, reject write
keywords at the start or after a semicolon, reject dangerous mid-query
patterns, and reject a bare INTO clause that is not INSERT INTO. -/
def validateReadOnlyQuery (query : String) : Except String Unit :=
  let upperQuery := strToUpper (strTrim query)
  match checkWriteKeywords upperQuery writeKeywords with
  | .error e => .error e
  | .ok _ =>
      match checkDangerousPatterns upperQuery dangerousPatterns with
      | .error e => .error e
      | .ok _ =>
          if strContainsSub upperQuery " INTO " &&
              !(strContainsSub upperQuery "INSERT INTO") then
            .error "write operations are not allowed in read-only mode: detected 'INTO' clause"
          else .ok ()

/-- The envelope returned by Go `handleQuery` on success. -/
structure QueryResult where
  results : List Row
  query : String
  params : List Value
  rowCount : Nat
deriving DecidableEq, Repr

/-- Go `handleQuery`: require the query parameter, validate it as
read-only before anything touches the database, resolve the handle, then
execute (the performance analyzer's `TrackQuery` wrapper, outside src/,
invokes the inner closure directly and is modelled as that invocation;
the timeout only bounds the context).  The second component is the
ordered list of query texts executed against the database. -/
def handleQuery (dbManager : Option Manager) (params : Params) :
    Except String QueryResult × List String :=
  match dbManager with
  | none => (.error "database manager not initialized", [])
  | some mgr =>
      match getStringParam params "query" with
      | (_, false) => (.error "query parameter is required", [])
      | (query, true) =>
          match validateReadOnlyQuery query with
          | .error e => (.error e, [])
          | .ok _ =>
              match getStringParam params "database" with
              | (_, false) => (.error "database parameter is required", [])
              | (databaseID, true) =>
                  match mgr.GetDatabase databaseID with
                  | .error e => (.error ("failed to get database: " ++ e), [])
                  | .ok db =>
                      let queryParams := (getArrayParam params "params").1
                      match db.query query queryParams with
                      | .error e => (.error ("failed to execute query: " ++ e), [query])
                      | .ok rows =>
                          match rowsToMaps rows with
                          | .error e => (.error ("failed to process query results: " ++ e), [query])
                          | .ok results =>
                              (.ok { results := results, query := query,
                                     params := queryParams, rowCount := results.length },
                               [query])

/-! ## Concrete fixtures used by the claim witnesses -/

/-- The text of the first PostgreSQL tables candidate, for fixtures. -/
def pgTablesQ1 : String :=
  "SELECT tablename as table_name FROM pg_catalog.pg_tables WHERE schemaname = 'public'"

/-- The text of the PostgreSQL enum-values candidate, for fixtures. -/
def pgEnumQ1 : String :=
  "SELECT t.typname as enum_name, n.nspname as schema_name, e.enumlabel as enum_value, e.enumsortorder as sort_order FROM pg_type t JOIN pg_enum e ON t.oid = e.enumtypid JOIN pg_catalog.pg_namespace n ON n.oid = t.typnamespace WHERE n.nspname = 'public' ORDER BY t.typname, e.enumsortorder"

/-- A PostgreSQL fixture with tables `users` and `orders` where every
query for `users` columns succeeds and everything else (notably every
query about `orders`, the enum facet and the stats facet) fails. -/
def isoDb : Database :=
  { driverName := "postgres",
    query := fun q args =>
      if q = pgTablesQ1 then
        .ok [[("table_name", Value.str "users")], [("table_name", Value.str "orders")]]
      else if args = [Value.str "users"] then
        .ok [[("column_name", Value.str "id"), ("data_type", Value.str "integer"),
              ("udt_name", Value.str "int4")]]
      else .error "forced failure" }

/-- A PostgreSQL fixture with one table `orders` whose `status` column is
a USER-DEFINED enum, and an enum catalog for `order_status`. -/
def enumDb : Database :=
  { driverName := "postgres",
    query := fun q args =>
      if q = pgTablesQ1 then
        .ok [[("table_name", Value.str "orders")]]
      else if q = pgEnumQ1 then
        .ok [[("enum_name", Value.str "order_status"), ("enum_value", Value.str "pending")],
             [("enum_name", Value.str "order_status"), ("enum_value", Value.str "shipped")],
             [("enum_name", Value.str "order_status"), ("enum_value", Value.str "delivered")]]
      else if args = [Value.str "orders"] then
        .ok [[("column_name", Value.str "status"), ("data_type", Value.str "USER-DEFINED"),
              ("udt_name", Value.str "order_status")]]
      else .error "forced failure" }

/-- A PostgreSQL fixture whose tables facet succeeds but yields a row
keyed like the MySQL `SHOW TABLES` result, without a `table_name` key. -/
def badRowDb : Database :=
  { driverName := "postgres",
    query := fun q _ =>
      if q = pgTablesQ1 then
        .ok [[("Tables_in_testdb", Value.str "users")]]
      else .error "forced failure" }

/-- A fixture whose every query fails, with the failing text recorded in
the error. -/
def failDb : Database :=
  { driverName := "generic-unknown",
    query := fun q _ => .error ("fail " ++ q) }

/-- A fixture where exactly the query text `Q2` succeeds. -/
def secondDb : Database :=
  { driverName := "generic-unknown",
    query := fun q _ =>
      if q = "Q2" then .ok [[("a", Value.str "1")]] else .error "e1" }

/-- A two-candidate list with texts `Q1` and `Q2`, for the executor
witnesses. -/
def twoCandidates : List QueryWithArgs :=
  [{ query := "Q1", args := [] }, { query := "Q2", args := [] }]

/-- An empty cache with a 300-unit TTL over `Nat` payloads, for the cache
witness. -/
def emptyCache : SchemaCacheM Nat := { entries := [], ttl := 300 }

/-- A manager holding one database, for the handler witnesses. -/
def oneDbManager : Manager := { connections := [("db1", isoDb)] }

/-- Parameters of a schema-explorer call asking for columns without a
table argument. -/
def schemaColumnsParams : Params :=
  [("component", Value.str "columns"), ("database", Value.str "db1")]

/-- Parameters of a query-tool call carrying a DDL statement. -/
def queryToolParams : Params :=
  [("query", Value.str "DROP TABLE users"), ("database", Value.str "db1")]

/-- The schema-restriction predicate of the spec's design invariant: the
candidate text carries a schema filter on `'public'` (PostgreSQL-style)
or on `DATABASE()` (MySQL-style). -/
def restrictsToAccessibleSchema (q : String) : Bool :=
  strContainsSub q "'public'" || strContainsSub q "DATABASE()"

/-- All candidates the PostgreSQL strategy produces over its eight facet
operations for a given table argument. -/
def PostgresStrategy.allQueries (table : String) : List QueryWithArgs :=
  PostgresStrategy.GetTablesQueries ++ PostgresStrategy.GetColumnsQueries table ++
  PostgresStrategy.GetRelationshipsQueries table ++ PostgresStrategy.GetPrimaryKeysQueries table ++
  PostgresStrategy.GetIndexesQueries table ++ PostgresStrategy.GetEnumValuesQueries ++
  PostgresStrategy.GetUniqueConstraintsQueries table ++ PostgresStrategy.GetTableStatsQueries table

/-- All candidates the MySQL strategy produces over its eight facet
operations for a given table argument. -/
def MySQLStrategy.allQueries (table : String) : List QueryWithArgs :=
  MySQLStrategy.GetTablesQueries ++ MySQLStrategy.GetColumnsQueries table ++
  MySQLStrategy.GetRelationshipsQueries table ++ MySQLStrategy.GetPrimaryKeysQueries table ++
  MySQLStrategy.GetIndexesQueries table ++ MySQLStrategy.GetEnumValuesQueries ++
  MySQLStrategy.GetUniqueConstraintsQueries table ++ MySQLStrategy.GetTableStatsQueries table

/-! ## Helper lemmas -/

theorem assocLookup_assocSet_self {α : Type} (m : List (String × α)) (k : String) (v : α) :
    assocLookup (assocSet m k v) k = some v := by
  induction m with
  | nil => simp [assocSet, assocLookup]
  | cons p rest ih =>
      obtain ⟨k', v'⟩ := p
      by_cases h : k' = k
      · simp [assocSet, assocLookup, h]
      · simp [assocSet, assocLookup, h, ih]

theorem assocLookup_assocSet_ne {α : Type} (m : List (String × α)) (k k' : String) (v : α)
    (h : k' ≠ k) : assocLookup (assocSet m k v) k' = assocLookup m k' := by
  have hkk : ¬ k = k' := fun he => h he.symm
  induction m with
  | nil => simp [assocSet, assocLookup, hkk]
  | cons p rest ih =>
      obtain ⟨k0, v0⟩ := p
      by_cases h0 : k0 = k
      · simp [assocSet, assocLookup, h0, hkk]
      · simp only [assocSet, h0, if_false, assocLookup]
        by_cases h1 : k0 = k'
        · simp [h1]
        · simp [h1, ih]

theorem mem_assocSet {α : Type} (m : List (String × α)) (k : String) (v : α)
    (p : String × α) (hp : p ∈ assocSet m k v) : p ∈ m ∨ p = (k, v) := by
  induction m with
  | nil =>
      simp [assocSet] at hp
      right; exact hp
  | cons q rest ih =>
      obtain ⟨k0, v0⟩ := q
      by_cases h0 : k0 = k
      · simp only [assocSet, h0, if_true, List.mem_cons] at hp
        rcases hp with h1 | h1
        · right; exact h1
        · left; exact List.mem_cons_of_mem _ h1
      · simp only [assocSet, h0, if_false, List.mem_cons] at hp
        rcases hp with h1 | h1
        · left; simp [h1]
        · rcases ih h1 with h2 | h2
          · left; exact List.mem_cons_of_mem _ h2
          · right; exact h2

theorem listIsPrefix_append (p l m : List Char) (h : listIsPrefix p l = true) :
    listIsPrefix p (l ++ m) = true := by
  induction p generalizing l with
  | nil => simp [listIsPrefix]
  | cons c cs ih =>
      cases l with
      | nil => simp [listIsPrefix] at h
      | cons d ds =>
          simp only [listIsPrefix, List.cons_append] at h ⊢
          by_cases hcd : c = d
          · simp only [hcd, if_true] at h ⊢
            exact ih ds h
          · simp [hcd] at h

theorem listContainsSub_nil (l : List Char) : listContainsSub [] l = true := by
  cases l <;> simp [listContainsSub, listIsPrefix]

theorem listContainsSub_append_left (pat l m : List Char)
    (h : listContainsSub pat l = true) : listContainsSub pat (l ++ m) = true := by
  induction l with
  | nil =>
      simp only [listContainsSub] at h
      cases pat with
      | nil => simp [listContainsSub_nil]
      | cons c cs => simp [listIsPrefix] at h
  | cons c cs ih =>
      simp only [List.cons_append, listContainsSub] at h ⊢
      by_cases hpre : listIsPrefix pat (c :: cs) = true
      · have h2 : listIsPrefix pat (c :: (cs ++ m)) = true := by
          have h3 := listIsPrefix_append pat (c :: cs) m hpre
          simpa using h3
        simp [h2]
      · rw [if_neg hpre] at h
        have h4 := ih h
        by_cases hpre2 : listIsPrefix pat (c :: (cs ++ m)) = true <;> simp [hpre2, h4]

theorem strContainsSub_append_left (s t sub : String) (h : strContainsSub s sub = true) :
    strContainsSub (s ++ t) sub = true := by
  unfold strContainsSub at h ⊢
  rw [String.data_append]
  exact listContainsSub_append_left _ _ _ h

theorem strHasPrefix_append (s t pre : String) (h : strHasPrefix s pre = true) :
    strHasPrefix (s ++ t) pre = true := by
  unfold strHasPrefix at h ⊢
  rw [String.data_append]
  exact listIsPrefix_append _ _ _ h

theorem ewfGo_cons_ok (db : Database) (total : Nat) (op : String) (le : Option String)
    (q : QueryWithArgs) (rest : List QueryWithArgs) (rows : List Row)
    (hdb : db.query q.query q.args = .ok rows) :
    executeWithFallbacksGo db total op le (q :: rest) = (.ok rows, [q.query]) := by
  simp only [executeWithFallbacksGo, hdb]

theorem ewfGo_cons_error (db : Database) (total : Nat) (op : String) (le : Option String)
    (q : QueryWithArgs) (rest : List QueryWithArgs) (e : String)
    (hdb : db.query q.query q.args = .error e) :
    executeWithFallbacksGo db total op le (q :: rest) =
      ((executeWithFallbacksGo db total op (some e) rest).1,
       q.query :: (executeWithFallbacksGo db total op (some e) rest).2) := by
  simp only [executeWithFallbacksGo, hdb]

theorem ewfGo_all_fail (db : Database) (total : Nat) (op : String)
    (qs : List QueryWithArgs) : ∀ le : Option String,
    (∀ q ∈ qs, isErrE (db.query q.query q.args) = true) → qs ≠ [] →
    ∃ qlast e, qs.getLast? = some qlast ∧ db.query qlast.query qlast.args = .error e ∧
      executeWithFallbacksGo db total op le qs =
        (.error (op ++ " failed after trying " ++ toString total ++
          " fallback queries: " ++ e), qs.map (fun q => q.query)) := by
  induction qs with
  | nil => intro le _ hne; exact absurd rfl hne
  | cons q rest ih =>
      intro le hfail _
      have hq := hfail q (by simp)
      cases hdb : db.query q.query q.args with
      | ok rows => rw [hdb] at hq; simp [isErrE] at hq
      | error e =>
          cases rest with
          | nil =>
              refine ⟨q, e, rfl, hdb, ?_⟩
              rw [ewfGo_cons_error db total op le q [] e hdb]
              simp [executeWithFallbacksGo]
          | cons q2 rest2 =>
              obtain ⟨qlast, e2, hlast, herr, heq⟩ :=
                ih (some e) (fun x hx => hfail x (by simp [hx])) (by simp)
              refine ⟨qlast, e2, ?_, herr, ?_⟩
              · rw [List.getLast?_cons_cons, hlast]
              · rw [ewfGo_cons_error db total op le q (q2 :: rest2) e hdb, heq]
                simp

theorem ewfGo_isErr_of_all_fail (db : Database) (total : Nat) (op : String)
    (qs : List QueryWithArgs) : ∀ le : Option String,
    (∀ q ∈ qs, isErrE (db.query q.query q.args) = true) →
    isErrE (executeWithFallbacksGo db total op le qs).1 = true := by
  induction qs with
  | nil => intro le _; simp [executeWithFallbacksGo, isErrE]
  | cons q rest ih =>
      intro le hfail
      have hq := hfail q (by simp)
      cases hdb : db.query q.query q.args with
      | ok rows => rw [hdb] at hq; simp [isErrE] at hq
      | error e =>
          simp only [executeWithFallbacksGo, hdb]
          exact ih (some e) (fun x hx => hfail x (by simp [hx]))

theorem ewf_isErr_of_all_fail (db : Database) (qs : List QueryWithArgs) (op : String)
    (hfail : ∀ q ∈ qs, isErrE (db.query q.query q.args) = true) :
    isErrE (executeWithFallbacks db qs op).1 = true :=
  ewfGo_isErr_of_all_fail db qs.length op qs none hfail

theorem ewfGo_short_circuit (db : Database) (op : String) (rows : List Row)
    (qs : List QueryWithArgs) : ∀ (i : Nat) (hi : i < qs.length) (total : Nat)
    (le : Option String),
    (∀ j (hj : j < i), isErrE (db.query (qs.get ⟨j, Nat.lt_trans hj hi⟩).query
      (qs.get ⟨j, Nat.lt_trans hj hi⟩).args) = true) →
    db.query (qs.get ⟨i, hi⟩).query (qs.get ⟨i, hi⟩).args = .ok rows →
    executeWithFallbacksGo db total op le qs =
      (.ok rows, (qs.take (i + 1)).map (fun q => q.query)) := by
  induction qs with
  | nil => intro i hi; simp at hi
  | cons q rest ih =>
      intro i hi total le hfail hsucc
      cases i with
      | zero =>
          simp only [List.get] at hsucc
          simp [executeWithFallbacksGo, hsucc]
      | succ i0 =>
          have hq0 := hfail 0 (Nat.succ_pos i0)
          simp only [List.get] at hq0
          cases hdb : db.query q.query q.args with
          | ok rows0 => rw [hdb] at hq0; simp [isErrE] at hq0
          | error e =>
              have hi0 : i0 < rest.length := Nat.lt_of_succ_lt_succ hi
              have hrec := ih i0 hi0 total (some e)
                (fun j hj => by
                  have := hfail (j + 1) (Nat.succ_lt_succ hj)
                  simpa [List.get] using this)
                (by simpa [List.get] using hsucc)
              simp only [executeWithFallbacksGo, hdb, hrec, List.take, List.map_cons]

/-! ## Claims C3, C4, C5 -/

/-- C3. Fallback exhaustion: when every one of the N (nonzero) ordered
candidates fails, the executor attempts exactly the N query texts in
order, and the returned error wraps the last candidate's error and states
the number N of candidates attempted. -/
theorem claim3_fallback_exhaustion (db : Database) (qs : List QueryWithArgs) (op : String)
    (hne : qs ≠ [])
    (hfail : ∀ q ∈ qs, isErrE (db.query q.query q.args) = true) :
    ∃ qlast e, qs.getLast? = some qlast ∧ db.query qlast.query qlast.args = .error e ∧
      executeWithFallbacks db qs op =
        (.error (op ++ " failed after trying " ++ toString qs.length ++
          " fallback queries: " ++ e), qs.map (fun q => q.query)) :=
  ewfGo_all_fail db qs.length op qs none hfail hne

/-- Witness for C3 at a concrete two-candidate list that always fails. -/
theorem claim3_fallback_exhaustion_witness :
    ∃ qlast e, twoCandidates.getLast? = some qlast ∧
      failDb.query qlast.query qlast.args = .error e ∧
      executeWithFallbacks failDb twoCandidates "op" =
        (.error ("op" ++ " failed after trying " ++ toString twoCandidates.length ++
          " fallback queries: " ++ e), twoCandidates.map (fun q => q.query)) :=
  claim3_fallback_exhaustion failDb twoCandidates "op" (by simp [twoCandidates])
    (by intro q _; simp [failDb, isErrE])

/-- C4. Fallback short-circuit: when candidates before position i fail and
candidate i succeeds, the executor attempts exactly candidates 1 through
i+1 (1-based), strictly in sequence, and returns candidate i's result
set. -/
theorem claim4_fallback_short_circuit (db : Database) (qs : List QueryWithArgs)
    (op : String) (rows : List Row) (i : Nat) (hi : i < qs.length)
    (hfail : ∀ j (hj : j < i), isErrE (db.query (qs.get ⟨j, Nat.lt_trans hj hi⟩).query
      (qs.get ⟨j, Nat.lt_trans hj hi⟩).args) = true)
    (hsucc : db.query (qs.get ⟨i, hi⟩).query (qs.get ⟨i, hi⟩).args = .ok rows) :
    executeWithFallbacks db qs op = (.ok rows, (qs.take (i + 1)).map (fun q => q.query)) :=
  ewfGo_short_circuit db op rows qs i hi qs.length none hfail hsucc

/-- Witness for C4: first candidate fails, second succeeds, exactly two
queries attempted and the second's rows returned. -/
theorem claim4_fallback_short_circuit_witness :
    executeWithFallbacks secondDb twoCandidates "op" =
      (.ok [[("a", Value.str "1")]], (twoCandidates.take 2).map (fun q => q.query)) :=
  claim4_fallback_short_circuit secondDb twoCandidates "op" [[("a", Value.str "1")]] 1
    (by simp [twoCandidates])
    (by
      intro j hj
      interval_cases j
      simp [twoCandidates, secondDb, isErrE, List.get])
    (by simp [twoCandidates, secondDb, List.get])

/-- C5. Cache TTL semantics: a `Set` followed by an immediate `Get` of the
same key returns the value with found = true, and whenever the stored
entry's age exceeds the configured time-to-live, `Get` reports found =
false. -/
theorem claim5_cache_ttl {α : Type} (c : SchemaCacheM α) (now : Nat) (k : String) (v : α) :
    (c.Set now k v).Get now k = (some v, true) ∧
    ∀ (t : Nat) (entry : SchemaCacheEntryM α), assocLookup c.entries k = some entry →
      t - entry.timestamp > c.ttl → c.Get t k = (none, false) := by
  constructor
  · unfold SchemaCacheM.Get SchemaCacheM.Set
    simp [assocLookup_assocSet_self]
  · intro t entry hlook hage
    unfold SchemaCacheM.Get
    simp [hlook, hage]

/-- Witness for C5: store under TTL 300 at time 0, read back at time 0,
and read again at time 301. -/
theorem claim5_cache_ttl_witness :
    (emptyCache.Set 0 "db" 7).Get 0 "db" = (some 7, true) ∧
    (emptyCache.Set 0 "db" 7).Get 301 "db" = (none, false) :=
  ⟨(claim5_cache_ttl emptyCache 0 "db" 7).1,
   (claim5_cache_ttl (emptyCache.Set 0 "db" 7) 0 "db" 7).2 301
     { schema := 7, timestamp := 0 } (by simp [emptyCache, SchemaCacheM.Set, assocSet, assocLookup])
     (by simp [emptyCache, SchemaCacheM.Set])⟩

/-! ## Claims C7, C8 and C9 -/

theorem checkWriteKeywords_isErr (upper : String) (kws : List String) (kw : String)
    (hmem : kw ∈ kws) (hpre : strHasPrefix upper kw = true) :
    isErrE (checkWriteKeywords upper kws) = true := by
  induction kws with
  | nil => simp at hmem
  | cons k rest ih =>
      rcases List.mem_cons.mp hmem with h | h
      · subst h
        simp [checkWriteKeywords, hpre, isErrE]
      · by_cases h1 : strHasPrefix upper k = true
        · simp [checkWriteKeywords, h1, isErrE]
        · by_cases h2 : (strContainsSub upper (";" ++ k) ||
            strContainsSub upper ("; " ++ k)) = true
          · simp [checkWriteKeywords, h1, h2, isErrE]
          · simp only [checkWriteKeywords, if_neg h1, if_neg h2]
            exact ih h

theorem validateReadOnlyQuery_isErr_of_keyword (query kw : String)
    (hmem : kw ∈ writeKeywords)
    (hpre : strHasPrefix (strToUpper (strTrim query)) kw = true) :
    isErrE (validateReadOnlyQuery query) = true := by
  have hk := checkWriteKeywords_isErr (strToUpper (strTrim query)) writeKeywords kw hmem hpre
  unfold validateReadOnlyQuery
  cases h : checkWriteKeywords (strToUpper (strTrim query)) writeKeywords with
  | ok u => rw [h] at hk; simp [isErrE] at hk
  | error e => simp [h, isErrE]

/-- C8. Read-only enforcement: when the query parameter's trimmed,
upper-cased text begins with one of the write/DDL keywords, the query tool
handler returns an error and no query is executed against the database. -/
theorem claim8_read_only_enforcement (m : Option Manager) (params : Params)
    (query kw : String)
    (hq : getStringParam params "query" = (query, true))
    (hkw : kw ∈ writeKeywords)
    (hpre : strHasPrefix (strToUpper (strTrim query)) kw = true) :
    isErrE (handleQuery m params).1 = true ∧ (handleQuery m params).2 = [] := by
  cases m with
  | none => simp [handleQuery, isErrE]
  | some mgr =>
      have hv := validateReadOnlyQuery_isErr_of_keyword query kw hkw hpre
      cases hval : validateReadOnlyQuery query with
      | ok u => rw [hval] at hv; simp [isErrE] at hv
      | error e =>
          simp [handleQuery, hq, hval, isErrE]

/-- Witness for C8: a DROP statement through the query tool with a live
manager errors without touching the database. -/
theorem claim8_read_only_enforcement_witness :
    isErrE (handleQuery (some oneDbManager) queryToolParams).1 = true ∧
    (handleQuery (some oneDbManager) queryToolParams).2 = [] :=
  claim8_read_only_enforcement (some oneDbManager) queryToolParams "DROP TABLE users" "DROP"
    (by rfl) (by simp [writeKeywords]) (by decide)

/-- C7. Required-table enforcement: a schema-explorer invocation with
component `columns` and an empty (or absent, which extracts as empty)
table argument fails with an explicit error, and no query is executed
against the database. -/
theorem claim7_required_table_enforcement (m : Option Manager) (params : Params)
    (hc : getStringParam params "component" = ("columns", true))
    (ht : (getStringParam params "table").1 = "") :
    isErrE (handleSchemaExplorer m params).1 = true ∧
    (handleSchemaExplorer m params).2 = [] := by
  cases m with
  | none => simp [handleSchemaExplorer, isErrE]
  | some mgr =>
      rcases hd : getStringParam params "database" with ⟨databaseID, okb⟩
      cases okb with
      | false => simp [handleSchemaExplorer, hc, hd, isErrE]
      | true =>
          cases hg : mgr.GetDatabase databaseID with
          | error e => simp [handleSchemaExplorer, hc, hd, hg, isErrE]
          | ok db => simp [handleSchemaExplorer, hc, hd, hg, ht, isErrE]

/-- Witness for C7: the columns component with a live manager and no table
parameter errors without touching the database. -/
theorem claim7_required_table_enforcement_witness :
    isErrE (handleSchemaExplorer (some oneDbManager) schemaColumnsParams).1 = true ∧
    (handleSchemaExplorer (some oneDbManager) schemaColumnsParams).2 = [] :=
  claim7_required_table_enforcement (some oneDbManager) schemaColumnsParams
    (by rfl) (by rfl)

set_option maxRecDepth 100000 in
/-- C9 counterexample: the Generic strategy's only primary-keys candidate
for the all-tables case carries neither a `'public'` filter nor a
`DATABASE()` filter, refuting the claim that every candidate of every
dialect strategy restricts to the caller's accessible schema. -/
theorem claim9_counterexample :
    (GenericStrategy.GetPrimaryKeysQueries "").map
      (fun q => restrictsToAccessibleSchema q.query) = [false] := by
  decide

set_option maxRecDepth 100000 in
/-- C9 as amended: every PostgreSQL-strategy candidate of every facet
carries a `'public'` schema filter, and every MySQL-strategy candidate
either carries a `DATABASE()` schema filter or is a SHOW statement
(implicitly scoped to the current database); the Generic strategy's
deliberately permissive fallbacks are exempt. -/
theorem claim9_amended_schema_restriction (table : String) :
    (∀ q ∈ PostgresStrategy.allQueries table, strContainsSub q.query "'public'" = true) ∧
    (∀ q ∈ MySQLStrategy.allQueries table,
      (strContainsSub q.query "DATABASE()" || strHasPrefix q.query "SHOW") = true) := by
  by_cases ht : table = ""
  · subst ht
    exact ⟨by decide, by decide⟩
  · constructor
    · intro q hq
      simp only [PostgresStrategy.allQueries, List.mem_append] at hq
      rcases hq with (((((((hq | hq) | hq) | hq) | hq) | hq) | hq) | hq) <;>
        simp only [PostgresStrategy.GetTablesQueries, PostgresStrategy.GetColumnsQueries,
          PostgresStrategy.GetRelationshipsQueries, PostgresStrategy.GetPrimaryKeysQueries,
          PostgresStrategy.GetIndexesQueries, PostgresStrategy.GetEnumValuesQueries,
          PostgresStrategy.GetUniqueConstraintsQueries, PostgresStrategy.GetTableStatsQueries,
          if_neg ht, List.mem_cons, List.not_mem_nil, or_false] at hq
      case _ => rcases hq with h | h | h <;> (subst h; dsimp only; decide)
      case _ => rcases hq with h | h <;> (subst h; dsimp only; decide)
      case _ =>
        rcases hq with h | h <;>
          (subst h; dsimp only; exact strContainsSub_append_left _ _ _ (by decide))
      case _ => subst hq; dsimp only; decide
      case _ => subst hq; dsimp only; decide
      case _ => subst hq; dsimp only; decide
      case _ => subst hq; dsimp only; decide
      case _ => subst hq; dsimp only; decide
    · intro q hq
      simp only [MySQLStrategy.allQueries, List.mem_append] at hq
      rcases hq with (((((((hq | hq) | hq) | hq) | hq) | hq) | hq) | hq) <;>
        simp only [MySQLStrategy.GetTablesQueries, MySQLStrategy.GetColumnsQueries,
          MySQLStrategy.GetRelationshipsQueries, MySQLStrategy.GetPrimaryKeysQueries,
          MySQLStrategy.GetIndexesQueries, MySQLStrategy.GetEnumValuesQueries,
          MySQLStrategy.GetUniqueConstraintsQueries, MySQLStrategy.GetTableStatsQueries,
          if_neg ht, List.mem_cons, List.not_mem_nil, or_false] at hq
      case _ => rcases hq with h | h <;> (subst h; dsimp only; decide)
      case _ =>
        rcases hq with h | h
        · subst h; dsimp only; decide
        · subst h; dsimp only
          have hp := strHasPrefix_append "SHOW COLUMNS FROM " table "SHOW" (by decide)
          simp [hp]
      case _ =>
        rcases hq with h | h
        · subst h; dsimp only
          have hc := strContainsSub_append_left mysqlRelationshipsBase1
            " AND (tc.table_name = ? OR kcu.referenced_table_name = ?)" "DATABASE()" (by decide)
          simp [hc]
        · subst h; dsimp only
          have hc := strContainsSub_append_left mysqlRelationshipsBase2
            " AND (kcu.table_name = ? OR kcu.referenced_table_name = ?)" "DATABASE()" (by decide)
          simp [hc]
      case _ =>
        subst hq; dsimp only
        have hc := strContainsSub_append_left mysqlPrimaryKeysBase
          " AND tc.table_name = ?" "DATABASE()" (by decide)
        simp [hc]
      case _ =>
        subst hq; dsimp only
        have hc := strContainsSub_append_left mysqlIndexesBase
          " HAVING table_name = ?" "DATABASE()" (by decide)
        simp [hc]
      case _ => subst hq; dsimp only; decide
      case _ =>
        subst hq; dsimp only
        have hc := strContainsSub_append_left mysqlUniqueConstraintsBase
          " HAVING tc.table_name = ?" "DATABASE()" (by decide)
        simp [hc]
      case _ =>
        subst hq; dsimp only
        have hc := strContainsSub_append_left mysqlTableStatsBase
          " AND table_name = ?" "DATABASE()" (by decide)
        simp [hc]

set_option maxRecDepth 100000 in
/-- Witness for the amended C9 at concrete candidates: the first
PostgreSQL tables candidate and the MySQL SHOW TABLES candidate. -/
theorem claim9_amended_schema_restriction_witness :
    strContainsSub pgTablesQ1 "'public'" = true ∧
    (strContainsSub "SHOW TABLES" "DATABASE()" || strHasPrefix "SHOW TABLES" "SHOW") = true :=
  ⟨(claim9_amended_schema_restriction "").1 { query := pgTablesQ1, args := [] } (by decide),
   (claim9_amended_schema_restriction "").2 { query := "SHOW TABLES", args := [] } (by decide)⟩

/-! ## Assembly lemmas -/

theorem bds_nil (db : Database) (eb : List (String × List String)) (st : List (String × Row))
    (acc : List (String × TableDetail)) :
    buildDetailedSchema db eb st acc [] = (.ok acc, []) := rfl

theorem bds_cons_badname (db : Database) (eb : List (String × List String))
    (st : List (String × Row)) (acc : List (String × TableDetail)) (tableInfo : Row)
    (rest : List Row) (e : String)
    (hs : safeGetString tableInfo "table_name" = .error e) :
    buildDetailedSchema db eb st acc (tableInfo :: rest) =
      (.error ("invalid table info: " ++ e), []) := by
  simp only [buildDetailedSchema, hs]

theorem bds_cons_colserr (db : Database) (eb : List (String × List String))
    (st : List (String × Row)) (acc : List (String × TableDetail)) (tableInfo : Row)
    (rest : List Row) (n : String)
    (hs : safeGetString tableInfo "table_name" = .ok n)
    (hc : isErrE (getColumns db n).1 = true) :
    buildDetailedSchema db eb st acc (tableInfo :: rest) =
      ((buildDetailedSchema db eb st acc rest).1,
       (getColumns db n).2 ++ (buildDetailedSchema db eb st acc rest).2) := by
  rcases hcc : getColumns db n with ⟨r, tq⟩
  cases r with
  | ok cr => rw [hcc] at hc; simp [isErrE] at hc
  | error e => simp only [buildDetailedSchema, hs, hcc]

theorem bds_cons_colsok (db : Database) (eb : List (String × List String))
    (st : List (String × Row)) (acc : List (String × TableDetail)) (tableInfo : Row)
    (rest : List Row) (n : String) (cr : ColumnsResult) (tq : List String)
    (hs : safeGetString tableInfo "table_name" = .ok n)
    (hc : getColumns db n = (.ok cr, tq)) :
    buildDetailedSchema db eb st acc (tableInfo :: rest) =
      ((buildDetailedSchema db eb st
          (assocSet acc n (mkTableDetail db eb st n cr.columns)) rest).1,
       tq ++ tableDetailTrace db n ++
         (buildDetailedSchema db eb st
           (assocSet acc n (mkTableDetail db eb st n cr.columns)) rest).2) := by
  simp only [buildDetailedSchema, hs, hc]

theorem bds_ok (db : Database) (eb : List (String × List String)) (st : List (String × Row))
    (rows : List Row) : ∀ acc : List (String × TableDetail),
    (∀ row ∈ rows, isOkE (safeGetString row "table_name") = true) →
    ∃ ds, (buildDetailedSchema db eb st acc rows).1 = .ok ds := by
  induction rows with
  | nil => intro acc _; exact ⟨acc, rfl⟩
  | cons tableInfo rest ih =>
      intro acc hnames
      have h0 := hnames tableInfo (by simp)
      cases hs : safeGetString tableInfo "table_name" with
      | error e => rw [hs] at h0; simp [isOkE] at h0
      | ok n =>
          rcases hcc : getColumns db n with ⟨r, tq⟩
          cases r with
          | error e =>
              have hc : isErrE (getColumns db n).1 = true := by rw [hcc]; rfl
              rw [bds_cons_colserr db eb st acc tableInfo rest n hs hc]
              exact ih acc (fun x hx => hnames x (by simp [hx]))
          | ok cr =>
              rw [bds_cons_colsok db eb st acc tableInfo rest n cr tq hs hcc]
              exact ih _ (fun x hx => hnames x (by simp [hx]))

theorem bds_isErr_of_badrow (db : Database) (eb : List (String × List String))
    (st : List (String × Row)) (rows : List Row) :
    ∀ (acc : List (String × TableDetail)) (row : Row), row ∈ rows →
    isErrE (safeGetString row "table_name") = true →
    isErrE (buildDetailedSchema db eb st acc rows).1 = true := by
  induction rows with
  | nil => intro acc row h; simp at h
  | cons tableInfo rest ih =>
      intro acc row hmem hbad
      rcases List.mem_cons.mp hmem with h | h
      · subst h
        cases hs : safeGetString row "table_name" with
        | ok n => rw [hs] at hbad; simp [isErrE] at hbad
        | error e => rw [bds_cons_badname db eb st acc row rest e hs]; rfl
      · cases hs : safeGetString tableInfo "table_name" with
        | error e => rw [bds_cons_badname db eb st acc tableInfo rest e hs]; rfl
        | ok n =>
            rcases hcc : getColumns db n with ⟨r, tq⟩
            cases r with
            | error e =>
                have hc : isErrE (getColumns db n).1 = true := by rw [hcc]; rfl
                rw [bds_cons_colserr db eb st acc tableInfo rest n hs hc]
                exact ih acc row h hbad
            | ok cr =>
                rw [bds_cons_colsok db eb st acc tableInfo rest n cr tq hs hcc]
                exact ih _ row h hbad

theorem bds_lookup_none (db : Database) (eb : List (String × List String))
    (st : List (String × Row)) (T : String)
    (hcT : isErrE (getColumns db T).1 = true) (rows : List Row) :
    ∀ acc ds, assocLookup acc T = none →
    (buildDetailedSchema db eb st acc rows).1 = .ok ds → assocLookup ds T = none := by
  induction rows with
  | nil =>
      intro acc ds hacc hds
      rw [bds_nil] at hds
      simp only at hds
      cases hds
      exact hacc
  | cons tableInfo rest ih =>
      intro acc ds hacc hds
      cases hs : safeGetString tableInfo "table_name" with
      | error e =>
          rw [bds_cons_badname db eb st acc tableInfo rest e hs] at hds
          simp at hds
      | ok n =>
          rcases hcc : getColumns db n with ⟨r, tq⟩
          cases r with
          | error e =>
              have hc : isErrE (getColumns db n).1 = true := by rw [hcc]; rfl
              rw [bds_cons_colserr db eb st acc tableInfo rest n hs hc] at hds
              exact ih acc ds hacc hds
          | ok cr =>
              by_cases hnT : n = T
              · subst hnT
                rw [hcc] at hcT
                simp [isErrE] at hcT
              · rw [bds_cons_colsok db eb st acc tableInfo rest n cr tq hs hcc] at hds
                refine ih _ ds ?_ hds
                rw [assocLookup_assocSet_ne _ _ _ _ (fun he => hnT he.symm)]
                exact hacc

theorem bds_lookup_eq (db : Database) (eb : List (String × List String))
    (st : List (String × Row)) (U : String) (cru : ColumnsResult)
    (hU : (getColumns db U).1 = .ok cru) (rows : List Row) :
    ∀ acc ds,
    (assocLookup acc U = some (mkTableDetail db eb st U cru.columns) ∨
      ∃ row ∈ rows, safeGetString row "table_name" = .ok U) →
    (buildDetailedSchema db eb st acc rows).1 = .ok ds →
    assocLookup ds U = some (mkTableDetail db eb st U cru.columns) := by
  induction rows with
  | nil =>
      intro acc ds hP hds
      rw [bds_nil] at hds
      simp only at hds
      cases hds
      rcases hP with h | h
      · exact h
      · obtain ⟨row, hrow, _⟩ := h
        simp at hrow
  | cons tableInfo rest ih =>
      intro acc ds hP hds
      cases hs : safeGetString tableInfo "table_name" with
      | error e =>
          rw [bds_cons_badname db eb st acc tableInfo rest e hs] at hds
          simp at hds
      | ok n =>
          rcases hcc : getColumns db n with ⟨r, tq⟩
          cases r with
          | error e =>
              have hc : isErrE (getColumns db n).1 = true := by rw [hcc]; rfl
              rw [bds_cons_colserr db eb st acc tableInfo rest n hs hc] at hds
              refine ih acc ds ?_ hds
              rcases hP with h | h
              · exact Or.inl h
              · obtain ⟨row, hrow, hname⟩ := h
                rcases List.mem_cons.mp hrow with h1 | h1
                · subst h1
                  rw [hs] at hname
                  cases hname
                  rw [hcc] at hU
                  simp at hU
                · exact Or.inr ⟨row, h1, hname⟩
          | ok cr =>
              rw [bds_cons_colsok db eb st acc tableInfo rest n cr tq hs hcc] at hds
              refine ih _ ds ?_ hds
              by_cases hnU : n = U
              · subst hnU
                rw [hcc] at hU
                simp only at hU
                cases hU
                exact Or.inl (assocLookup_assocSet_self _ _ _)
              · rcases hP with h | h
                · refine Or.inl ?_
                  rw [assocLookup_assocSet_ne _ _ _ _ (fun he => hnU he.symm)]
                  exact h
                · obtain ⟨row, hrow, hname⟩ := h
                  rcases List.mem_cons.mp hrow with h1 | h1
                  · subst h1
                    rw [hs] at hname
                    cases hname
                    exact absurd rfl hnU
                  · exact Or.inr ⟨row, h1, hname⟩

theorem bds_stats_empty (db : Database) (eb : List (String × List String))
    (rows : List Row) :
    ∀ acc ds, (∀ p ∈ acc, p.2.statistics = ([] : Row)) →
    (buildDetailedSchema db eb [] acc rows).1 = .ok ds →
    ∀ p ∈ ds, p.2.statistics = ([] : Row) := by
  induction rows with
  | nil =>
      intro acc ds hacc hds
      rw [bds_nil] at hds
      simp only at hds
      cases hds
      exact hacc
  | cons tableInfo rest ih =>
      intro acc ds hacc hds
      cases hs : safeGetString tableInfo "table_name" with
      | error e =>
          rw [bds_cons_badname db eb [] acc tableInfo rest e hs] at hds
          simp at hds
      | ok n =>
          rcases hcc : getColumns db n with ⟨r, tq⟩
          cases r with
          | error e =>
              have hc : isErrE (getColumns db n).1 = true := by rw [hcc]; rfl
              rw [bds_cons_colserr db eb [] acc tableInfo rest n hs hc] at hds
              exact ih acc ds hacc hds
          | ok cr =>
              rw [bds_cons_colsok db eb [] acc tableInfo rest n cr tq hs hcc] at hds
              refine ih _ ds ?_ hds
              intro p hp
              rcases mem_assocSet _ _ _ p hp with h | h
              · exact hacc p h
              · rw [h]
                simp [mkTableDetail, assocLookup]

theorem assocLookup_attachForeignKeys (f : List (String × List Row))
    (ds : List (String × TableDetail)) (k : String) :
    assocLookup (attachForeignKeys f ds) k =
      (assocLookup ds k).map
        (fun d => { d with foreign_keys := (assocLookup f k).getD [] }) := by
  induction ds with
  | nil => rfl
  | cons p rest ih =>
      obtain ⟨k0, d0⟩ := p
      have ih2 := ih
      simp only [attachForeignKeys] at ih2 ⊢
      by_cases h : k0 = k
      · subst h; simp [assocLookup]
      · simp [assocLookup, h, ih2]

theorem mem_attachForeignKeys (f : List (String × List Row))
    (ds : List (String × TableDetail)) (p : String × TableDetail)
    (hp : p ∈ attachForeignKeys f ds) :
    ∃ q, q ∈ ds ∧ p = (q.1, { q.2 with foreign_keys := (assocLookup f q.1).getD [] }) := by
  simp only [attachForeignKeys, List.mem_map] at hp
  obtain ⟨q, hq, he⟩ := hp
  exact ⟨q, hq, he.symm⟩

theorem getFullSchema_ok (db : Database) (tr : TablesResult)
    (ds : List (String × TableDetail))
    (hT : (getTables db).1 = .ok tr)
    (hD : (buildDetailedSchema db (fullSchemaEnumTypes db) (fullSchemaStatsByTable db)
      [] tr.tables).1 = .ok ds) :
    (getFullSchema db).1 = .ok
      { tables := tr.tables,
        detailed_schema := attachForeignKeys (buildFksByTable (fullSchemaForeignKeys db)) ds,
        foreign_keys := fullSchemaForeignKeys db,
        enum_types := fullSchemaEnumTypes db,
        enum_values := fullSchemaEnumValues db } := by
  rcases hW : getTables db with ⟨r1, t1⟩
  have hr1 : r1 = .ok tr := by rw [hW] at hT; exact hT
  subst hr1
  rcases hB : buildDetailedSchema db (fullSchemaEnumTypes db) (fullSchemaStatsByTable db)
    [] tr.tables with ⟨r2, t2⟩
  have hr2 : r2 = .ok ds := by rw [hB] at hD; exact hD
  subst hr2
  unfold getFullSchema
  rw [hW]
  dsimp only
  rw [hB]

theorem getFullSchema_isErr_of_bds (db : Database) (tr : TablesResult)
    (hT : (getTables db).1 = .ok tr)
    (hD : isErrE (buildDetailedSchema db (fullSchemaEnumTypes db)
      (fullSchemaStatsByTable db) [] tr.tables).1 = true) :
    isErrE (getFullSchema db).1 = true := by
  rcases hW : getTables db with ⟨r1, t1⟩
  have hr1 : r1 = .ok tr := by rw [hW] at hT; exact hT
  subst hr1
  rcases hB : buildDetailedSchema db (fullSchemaEnumTypes db) (fullSchemaStatsByTable db)
    [] tr.tables with ⟨r2, t2⟩
  rw [hB] at hD
  cases r2 with
  | ok ds2 => simp [isErrE] at hD
  | error e =>
      unfold getFullSchema
      rw [hW]
      dsimp only
      rw [hB]
      rfl

theorem fullSchemaEnumTypes_empty_of_fail (db : Database)
    (hEnum : ∀ q ∈ (NewDatabaseStrategy db.driverName).GetEnumValuesQueries,
      isErrE (db.query q.query q.args) = true) :
    fullSchemaEnumTypes db = [] := by
  have hfe := ewf_isErr_of_all_fail db
    ((NewDatabaseStrategy db.driverName).GetEnumValuesQueries) "getEnumValues" hEnum
  unfold fullSchemaEnumTypes getEnumValues
  dsimp only
  rcases hez : executeWithFallbacks db
    ((NewDatabaseStrategy db.driverName).GetEnumValuesQueries) "getEnumValues" with ⟨r, t⟩
  rw [hez] at hfe
  cases r with
  | ok rows => simp [isErrE] at hfe
  | error e => rfl

theorem fullSchemaStatsByTable_empty_of_fail (db : Database)
    (hStats : ∀ q ∈ (NewDatabaseStrategy db.driverName).GetTableStatsQueries "",
      isErrE (db.query q.query q.args) = true) :
    fullSchemaStatsByTable db = [] := by
  have hfs := ewf_isErr_of_all_fail db
    ((NewDatabaseStrategy db.driverName).GetTableStatsQueries "") "getTableStats" hStats
  unfold fullSchemaStatsByTable getTableStats
  dsimp only
  rcases hez : executeWithFallbacks db
    ((NewDatabaseStrategy db.driverName).GetTableStatsQueries "") "getTableStats" with ⟨r, t⟩
  rw [hez] at hfs
  cases r with
  | ok rows => simp [isErrE] at hfs
  | error e => rfl

theorem enhanceColumn_user_defined (eb : List (String × List String)) (col : Row)
    (u : String) (vals : List String)
    (hdt : assocLookup col "data_type" = some (Value.str "USER-DEFINED"))
    (hudt : assocLookup col "udt_name" = some (Value.str u))
    (hcat : assocLookup eb u = some vals) :
    assocLookup (enhanceColumn eb col) "enum_values" = some (Value.strList vals) ∧
    assocLookup (enhanceColumn eb col) "enum_type" = some (Value.str u) := by
  unfold enhanceColumn
  rw [hdt, hudt]
  simp only [goStringAssert]
  rw [if_pos (by simp)]
  rw [hcat]
  constructor
  · rw [assocLookup_assocSet_ne _ _ _ _ (by decide)]
    exact assocLookup_assocSet_self _ _ _
  · exact assocLookup_assocSet_self _ _ _

/-! ## Claims C1, C2, C6 and C10 -/

/-- C1. Per-table failure isolation: with a successful tables facet whose
rows all carry a string table name, if the columns fetch fails for table T
but succeeds for table U, `getFullSchema` still succeeds, its tables list
still holds both rows, the detailed schema holds an entry for U, and there
is no detailed entry for T. -/
theorem claim1_per_table_isolation (db : Database) (tr : TablesResult) (T U : String)
    (rowT rowU : Row) (cu : ColumnsResult)
    (hT : (getTables db).1 = .ok tr)
    (hNames : ∀ row ∈ tr.tables, isOkE (safeGetString row "table_name") = true)
    (hrT : rowT ∈ tr.tables) (hrTname : safeGetString rowT "table_name" = .ok T)
    (hrU : rowU ∈ tr.tables) (hrUname : safeGetString rowU "table_name" = .ok U)
    (hcT : isErrE (getColumns db T).1 = true)
    (hcU : (getColumns db U).1 = .ok cu) :
    ∃ doc, (getFullSchema db).1 = .ok doc ∧ doc.tables = tr.tables ∧
      rowT ∈ doc.tables ∧ rowU ∈ doc.tables ∧
      (assocLookup doc.detailed_schema U).isSome = true ∧
      assocLookup doc.detailed_schema T = none := by
  obtain ⟨ds, hds⟩ := bds_ok db (fullSchemaEnumTypes db) (fullSchemaStatsByTable db)
    tr.tables [] hNames
  refine ⟨_, getFullSchema_ok db tr ds hT hds, rfl, hrT, hrU, ?_, ?_⟩
  · have hU := bds_lookup_eq db (fullSchemaEnumTypes db) (fullSchemaStatsByTable db)
      U cu hcU tr.tables [] ds (Or.inr ⟨rowU, hrU, hrUname⟩) hds
    rw [assocLookup_attachForeignKeys, hU]
    rfl
  · have hT0 := bds_lookup_none db (fullSchemaEnumTypes db) (fullSchemaStatsByTable db)
      T hcT tr.tables [] ds rfl hds
    rw [assocLookup_attachForeignKeys, hT0]
    rfl

/-- Witness for C1 on `isoDb`: columns of `orders` fail, columns of
`users` succeed, the document lists both and details only `users`. -/
theorem claim1_per_table_isolation_witness :
    ∃ doc, (getFullSchema isoDb).1 = .ok doc ∧
      doc.tables = (TablesResult.mk [[("table_name", Value.str "users")],
        [("table_name", Value.str "orders")]] "postgres").tables ∧
      [("table_name", Value.str "orders")] ∈ doc.tables ∧
      [("table_name", Value.str "users")] ∈ doc.tables ∧
      (assocLookup doc.detailed_schema "users").isSome = true ∧
      assocLookup doc.detailed_schema "orders" = none :=
  claim1_per_table_isolation isoDb
    (TablesResult.mk [[("table_name", Value.str "users")],
      [("table_name", Value.str "orders")]] "postgres")
    "orders" "users"
    [("table_name", Value.str "orders")] [("table_name", Value.str "users")]
    (ColumnsResult.mk "users" [[("column_name", Value.str "id"),
      ("data_type", Value.str "integer"), ("udt_name", Value.str "int4")]] "postgres")
    (by rfl) (by decide) (by decide) (by rfl) (by decide) (by rfl)
    (by rfl) (by rfl)

/-- C2. Tolerant facets never abort the call: when every enum-values
candidate and every table-statistics candidate fails (and the mandatory
tables facet succeeds with well-formed rows), `getFullSchema` still
succeeds, with an empty enum catalog and an empty statistics record on
every detailed table entry. -/
theorem claim2_tolerant_facets (db : Database) (tr : TablesResult)
    (hT : (getTables db).1 = .ok tr)
    (hNames : ∀ row ∈ tr.tables, isOkE (safeGetString row "table_name") = true)
    (hEnum : ∀ q ∈ (NewDatabaseStrategy db.driverName).GetEnumValuesQueries,
      isErrE (db.query q.query q.args) = true)
    (hStats : ∀ q ∈ (NewDatabaseStrategy db.driverName).GetTableStatsQueries "",
      isErrE (db.query q.query q.args) = true) :
    ∃ doc, (getFullSchema db).1 = .ok doc ∧ doc.enum_types = [] ∧
      ∀ p ∈ doc.detailed_schema, p.2.statistics = ([] : Row) := by
  have hE := fullSchemaEnumTypes_empty_of_fail db hEnum
  have hS := fullSchemaStatsByTable_empty_of_fail db hStats
  obtain ⟨ds, hds⟩ := bds_ok db (fullSchemaEnumTypes db) (fullSchemaStatsByTable db)
    tr.tables [] hNames
  have hds2 := hds
  rw [hS] at hds2
  refine ⟨_, getFullSchema_ok db tr ds hT hds, hE, ?_⟩
  intro p hp
  obtain ⟨q, hq, he⟩ := mem_attachForeignKeys _ _ p hp
  have hqs : q.2.statistics = ([] : Row) :=
    bds_stats_empty db (fullSchemaEnumTypes db) tr.tables [] ds (by simp) hds2 q hq
  rw [he]
  exact hqs

/-- Witness for C2 on `isoDb`: the enum and stats facets fail wholesale,
yet the full schema succeeds with empty enum types and empty per-table
statistics. -/
theorem claim2_tolerant_facets_witness :
    ∃ doc, (getFullSchema isoDb).1 = .ok doc ∧ doc.enum_types = [] ∧
      ∀ p ∈ doc.detailed_schema, p.2.statistics = ([] : Row) :=
  claim2_tolerant_facets isoDb
    (TablesResult.mk [[("table_name", Value.str "users")],
      [("table_name", Value.str "orders")]] "postgres")
    (by rfl) (by decide) (by decide) (by decide)

/-- C6. Enum attachment: during full-schema assembly, a fetched column
whose declared `data_type` is USER-DEFINED and whose `udt_name` is a key
of the assembly's enum catalog is carried in the table's detailed entry
with `enum_values` equal to that catalog entry's ordered labels and
`enum_type` equal to the `udt_name`. -/
theorem claim6_enum_attachment (db : Database) (tr : TablesResult) (rowN : Row)
    (n : String) (cr : ColumnsResult) (col : Row) (u : String) (vals : List String)
    (hT : (getTables db).1 = .ok tr)
    (hNames : ∀ row ∈ tr.tables, isOkE (safeGetString row "table_name") = true)
    (hrow : rowN ∈ tr.tables) (hname : safeGetString rowN "table_name" = .ok n)
    (hcols : (getColumns db n).1 = .ok cr) (hcol : col ∈ cr.columns)
    (hdt : assocLookup col "data_type" = some (Value.str "USER-DEFINED"))
    (hudt : assocLookup col "udt_name" = some (Value.str u))
    (hcat : assocLookup (fullSchemaEnumTypes db) u = some vals) :
    ∃ doc detail, (getFullSchema db).1 = .ok doc ∧
      assocLookup doc.detailed_schema n = some detail ∧
      ∃ col2 ∈ detail.columns,
        assocLookup col2 "enum_values" = some (Value.strList vals) ∧
        assocLookup col2 "enum_type" = some (Value.str u) := by
  obtain ⟨ds, hds⟩ := bds_ok db (fullSchemaEnumTypes db) (fullSchemaStatsByTable db)
    tr.tables [] hNames
  have hN := bds_lookup_eq db (fullSchemaEnumTypes db) (fullSchemaStatsByTable db)
    n cr hcols tr.tables [] ds (Or.inr ⟨rowN, hrow, hname⟩) hds
  refine ⟨_, { mkTableDetail db (fullSchemaEnumTypes db) (fullSchemaStatsByTable db)
      n cr.columns with
      foreign_keys := (assocLookup (buildFksByTable (fullSchemaForeignKeys db)) n).getD [] },
    getFullSchema_ok db tr ds hT hds, ?_, ?_⟩
  · rw [assocLookup_attachForeignKeys, hN]
    rfl
  · refine ⟨enhanceColumn (fullSchemaEnumTypes db) col, ?_, ?_⟩
    · show enhanceColumn (fullSchemaEnumTypes db) col ∈
        (mkTableDetail db (fullSchemaEnumTypes db) (fullSchemaStatsByTable db)
          n cr.columns).columns
      simp only [mkTableDetail, enhanceColumns]
      exact List.mem_map_of_mem _ hcol
    · exact enhanceColumn_user_defined (fullSchemaEnumTypes db) col u vals hdt hudt hcat

set_option maxRecDepth 100000 in
/-- Witness for C6 on `enumDb`: the `status` column of `orders` comes out
with `enum_values = [pending, shipped, delivered]` and
`enum_type = order_status`. -/
theorem claim6_enum_attachment_witness :
    ∃ doc detail, (getFullSchema enumDb).1 = .ok doc ∧
      assocLookup doc.detailed_schema "orders" = some detail ∧
      ∃ col2 ∈ detail.columns,
        assocLookup col2 "enum_values" =
          some (Value.strList ["pending", "shipped", "delivered"]) ∧
        assocLookup col2 "enum_type" = some (Value.str "order_status") :=
  claim6_enum_attachment enumDb
    (TablesResult.mk [[("table_name", Value.str "orders")]] "postgres")
    [("table_name", Value.str "orders")] "orders"
    (ColumnsResult.mk "orders" [[("column_name", Value.str "status"),
      ("data_type", Value.str "USER-DEFINED"),
      ("udt_name", Value.str "order_status")]] "postgres")
    [("column_name", Value.str "status"), ("data_type", Value.str "USER-DEFINED"),
      ("udt_name", Value.str "order_status")]
    "order_status" ["pending", "shipped", "delivered"]
    (by rfl) (by decide) (by decide) (by rfl) (by rfl) (by decide)
    (by rfl) (by rfl) (by rfl)

/-- C10. A tables row without a string `table_name` key aborts the whole
assembly: when the tables facet succeeds but some returned row lacks a
string-valued `table_name`, `getFullSchema` returns an error for the whole
call. -/
theorem claim10_missing_table_name_aborts (db : Database) (tr : TablesResult) (row : Row)
    (hT : (getTables db).1 = .ok tr) (hrow : row ∈ tr.tables)
    (hbad : isErrE (safeGetString row "table_name") = true) :
    isErrE (getFullSchema db).1 = true := by
  refine getFullSchema_isErr_of_bds db tr hT ?_
  exact bds_isErr_of_badrow db (fullSchemaEnumTypes db) (fullSchemaStatsByTable db)
    tr.tables [] row hrow hbad

/-- Witness for C10 on `badRowDb`, whose tables facet yields a
`SHOW TABLES`-shaped row keyed `Tables_in_testdb`. -/
theorem claim10_missing_table_name_aborts_witness :
    isErrE (getFullSchema badRowDb).1 = true :=
  claim10_missing_table_name_aborts badRowDb
    (TablesResult.mk [[("Tables_in_testdb", Value.str "users")]] "postgres")
    [("Tables_in_testdb", Value.str "users")]
    (by rfl) (by decide) (by rfl)

end InfraMcp
